import Mathlib

/-!
# dynd-python low-level API: a shallow embedding

The definitions below follow `src/src/py_lowlevel_api.cpp` function by function.
Every C++ function there has the shape `try { ... } catch (...) { translate_exception();
return NULL; }`; a thrown exception is the `Except.error` branch of the embedding and the
wrapped return value is the `Except.ok` branch.

Integers: `intptr_t` values are embedded as `Int`. The only arithmetic in the embedded code
is `lifted_type.get_ndim() - data_dynd_types[1].get_ndim()` (two dimension counts), the
negation `-reduction_ndim` and `ax += reduction_ndim` under the guard
`-reduction_ndim <= ax < 0`; none of them can leave the 64-bit range, so no reduction
modulo `2^64` is needed there. The one conversion to an unsigned type, the byte count
`reduction_ndim * sizeof(bool)` handed to `memset`, is embedded with its wrap-around
(`memset_count`).
-/

namespace pydynd

/-! ## Data model -/

/-- The part of a dynd `ndt::type` that the low-level API inspects: the datashape it prints
as, its number of array dimensions (`get_ndim`) and the size in bytes of the metadata an
array of this type carries (`get_metadata_size`). -/
structure ndt_type where
  datashape : String
  ndim : Nat
  metadata_size : Nat
deriving DecidableEq, Repr

/-- The fields of a `ckernel_deferred` read by the API. `data_dynd_types[0]` is the
destination type and `data_dynd_types[1]` the first source operand type. -/
structure ckernel_deferred where
  data_dynd_types_0 : ndt_type
  data_dynd_types_1 : ndt_type
  data_dynd_types_rest : List ndt_type
deriving DecidableEq, Repr

/-- The content of a wrapped `nd::array` as far as the API distinguishes it: either its type
id is `ckernel_deferred_type_id` and its data is a `ckernel_deferred`, or it is an array
of some other type. -/
inductive nd_array where
  | of_ckernel_deferred (ckd : ckernel_deferred)
  | of_type (tp : ndt_type)
deriving DecidableEq, Repr

/-- The Python objects that reach the flag and array parameters of the API:
`Py_None`, `Py_True`, `Py_False`, a `WArray` wrapper, or any other object. -/
inductive PyObject where
  | Py_None
  | Py_True
  | Py_False
  | WArray (v : nd_array)
  | other
deriving DecidableEq, Repr

/-- The exceptions thrown inside the API functions, one constructor per throw site kind.
* `metadata_mismatch tp`: `runtime_error("Cannot create an assignment kernel independent of
  metadata with non-empty metadata, type: " << tp)`
* `unsupported_metadata tp`: `runtime_error("Cannot create a dynd array from a raw pointer
  with non-empty metadata, type: " << tp)`
* `invalid_function_prototype fp`: `runtime_error("Invalid function prototype type " << fp)`
* `invalid_kernel_request_type kt`: `runtime_error("Invalid kernel request type " << kt)`
* `axis_out_of_bounds ax ndim`: `axis_out_of_bounds(ax, reduction_ndim)`
* `type_error msg`: `dynd::type_error(msg)`
* `invalid_argument argname value`: raised by the string-to-enum argument helper
* `library code`: anything thrown from inside a callee whose code is outside the sources
  (the dynd library, the argument helpers).
* `memset_overrun count length`: not an exception. `memset` is asked to clear `count` bytes
  of a flag storage that has only `length` of them; the call writes outside the storage and
  the behaviour of the function is undefined from there on. -/
inductive Error where
  | metadata_mismatch (tp : ndt_type)
  | unsupported_metadata (tp : ndt_type)
  | invalid_function_prototype (fp : String)
  | invalid_kernel_request_type (kt : String)
  | axis_out_of_bounds (ax : Int) (ndim : Int)
  | type_error (msg : String)
  | invalid_argument (argname : String) (value : String)
  | library (code : Nat)
  | memset_overrun (count : Nat) (length : Nat)
deriving DecidableEq, Repr

/-! ## lift_reduction_ckernel_deferred -/

/-- `WArray_Check(obj) && obj->v.get_type().get_type_id() == ckernel_deferred_type_id`. -/
def is_ckernel_deferred_array : PyObject → Bool
  | .WArray (.of_ckernel_deferred _) => true
  | _ => false

/-- The storage of `shortvector<bool> reduction_dimflags(reduction_ndim)` right after its
construction: `reduction_ndim` flags whose values are whatever the memory held (`uninit`).
The container is a dynd library type; for a negative count the embedding has no flag to
address, and what the library constructor does with such a count is not in the sources. -/
def shortvector_bool (uninit : Nat → Bool) (reduction_ndim : Int) : List Bool :=
  (List.range reduction_ndim.toNat).map uninit

/-- The loop `for (intptr_t i = 0; i < reduction_ndim; ++i) reduction_dimflags[i] = true;`. -/
def reduce_all_axes (reduction_ndim : Int) (reduction_dimflags : List Bool) : List Bool :=
  (List.range reduction_ndim.toNat).foldl (fun flags i => flags.set i true) reduction_dimflags

/-- The byte count `reduction_ndim * sizeof(bool)` as `memset` receives it. The product is
formed in `size_t` (`sizeof(bool)` is 1), so the `intptr_t` value `reduction_ndim` is
converted to unsigned 64 bits: a negative value arrives as `reduction_ndim + 2^64`. -/
def memset_count (reduction_ndim : Int) : Nat :=
  if reduction_ndim < 0 then (reduction_ndim + 2 ^ 64).toNat else reduction_ndim.toNat

/-- The call `memset(reduction_dimflags.get(), 0, reduction_ndim * sizeof(bool))`: the first
`memset_count reduction_ndim` flags of the storage are cleared. When the count exceeds the
storage the call overruns it, which is reported as `memset_overrun`. -/
def memset_zero (reduction_ndim : Int) (reduction_dimflags : List Bool) :
    Except Error (List Bool) :=
  if memset_count reduction_ndim ≤ reduction_dimflags.length then
    .ok ((List.range (memset_count reduction_ndim)).foldl
      (fun flags i => flags.set i false) reduction_dimflags)
  else
    .error (.memset_overrun (memset_count reduction_ndim) reduction_dimflags.length)

/-- The loop over `axis_vec` (lines 269-277): each axis is bounds checked against
`reduction_ndim`, a negative one is shifted by `reduction_ndim`, and its flag is set. -/
def axis_loop (reduction_ndim : Int) : List Int → List Bool → Except Error (List Bool)
  | [], reduction_dimflags => .ok reduction_dimflags
  | ax :: axis_rest, reduction_dimflags =>
    if ax < -reduction_ndim ∨ ax ≥ reduction_ndim then
      .error (.axis_out_of_bounds ax reduction_ndim)
    else
      let ax1 := if ax < 0 then ax + reduction_ndim else ax
      axis_loop reduction_ndim axis_rest (reduction_dimflags.set ax1.toNat true)

/-- The block of lines 259-278: build `reduction_dimflags` from `axis_obj`, where `none` is
`Py_None` and `some axis_vec` is the integer list `pyobject_as_vector_intp` extracted. -/
def resolve_axis (uninit : Nat → Bool) (reduction_ndim : Int) (axis_obj : Option (List Int)) :
    Except Error (List Bool) :=
  let reduction_dimflags := shortvector_bool uninit reduction_ndim
  match axis_obj with
  | none => .ok (reduce_all_axes reduction_ndim reduction_dimflags)
  | some axis_vec =>
    match memset_zero reduction_ndim reduction_dimflags with
    | .error e => .error e
    | .ok cleared => axis_loop reduction_ndim axis_vec cleared

/-- The conversion of a `Py_True`/`Py_False` argument, as repeated for `keepdims`,
`associative`, `commutative` and `right_associative`. -/
def py_bool_arg (argname : String) : PyObject → Except Error Bool
  | .Py_True => .ok true
  | .Py_False => .ok false
  | _ => .error (.type_error (argname ++ " must be either True or False"))

/-- The arguments with which the function finally calls
`dynd::lift_reduction_ckernel_deferred` of the dynd library. -/
structure lift_reduction_call where
  elwise_reduction : ckernel_deferred
  lifted_type : ndt_type
  dst_initialization : Option ckernel_deferred
  keepdims : Bool
  reduction_ndim : Int
  reduction_dimflags : List Bool
  associative : Bool
  commutative : Bool
  right_associative : Bool
  reduction_identity : Option nd_array
deriving DecidableEq, Repr

/-- The function `lift_reduction_ckernel_deferred` of `py_lowlevel_api.cpp` up to its call into
the dynd library. `lifted_type` is the type `make_ndt_type_from_pyobject` produced and
`uninit` is the indeterminate initial content of the flag storage. -/
def lift_reduction_ckernel_deferred (uninit : Nat → Bool)
    (elwise_reduction_obj : PyObject) (lifted_type : ndt_type)
    (dst_initialization_obj : PyObject) (axis_obj : Option (List Int))
    (keepdims_obj associative_obj commutative_obj right_associative_obj : PyObject)
    (reduction_identity_obj : PyObject) : Except Error lift_reduction_call :=
  match elwise_reduction_obj with
  | .WArray (.of_ckernel_deferred elwise_reduction_ckd) =>
    let dst_init : Except Error (Option ckernel_deferred) :=
      match dst_initialization_obj with
      | .WArray (.of_ckernel_deferred d) => .ok (some d)
      | .Py_None => .ok none
      | _ => .error (.type_error
          "dst_initialization must be None or an nd.array of type ckernel_deferred")
    match dst_init with
    | .error e => .error e
    | .ok dst_initialization =>
      -- This is the number of dimensions being reduced
      let reduction_ndim : Int :=
        (lifted_type.ndim : Int) - (elwise_reduction_ckd.data_dynd_types_1.ndim : Int)
      match resolve_axis uninit reduction_ndim axis_obj with
      | .error e => .error e
      | .ok reduction_dimflags =>
        match py_bool_arg "keepdims" keepdims_obj with
        | .error e => .error e
        | .ok keepdims =>
        match py_bool_arg "associative" associative_obj with
        | .error e => .error e
        | .ok associative =>
        match py_bool_arg "commutative" commutative_obj with
        | .error e => .error e
        | .ok commutative =>
        match py_bool_arg "right_associative" right_associative_obj with
        | .error e => .error e
        | .ok right_associative =>
          let ident : Except Error (Option nd_array) :=
            match reduction_identity_obj with
            | .WArray v => .ok (some v)
            | .Py_None => .ok none
            | _ => .error (.type_error "reduction_identity must be None or an nd.array")
          match ident with
          | .error e => .error e
          | .ok reduction_identity =>
            .ok { elwise_reduction := elwise_reduction_ckd
                  lifted_type := lifted_type
                  dst_initialization := dst_initialization
                  keepdims := keepdims
                  reduction_ndim := reduction_ndim
                  reduction_dimflags := reduction_dimflags
                  associative := associative
                  commutative := commutative
                  right_associative := right_associative
                  reduction_identity := reduction_identity }
  | _ => .error (.type_error "elwise_reduction must be an nd.array of type ckernel_deferred")

/-! ## array_from_ptr -/

/-- Modelled from the spec: the access bits `nd::read_access_flag`, `nd::write_access_flag`
and `nd::immutable_access_flag` of the array runtime, which the repository only uses by
name; they are three distinct single bits of the `uint32_t` flags word. -/
def read_access_flag : Nat := 0x01

/-- Modelled from the spec: `nd::write_access_flag`, see `read_access_flag`. -/
def write_access_flag : Nat := 0x02

/-- Modelled from the spec: `nd::immutable_access_flag`, see `read_access_flag`. -/
def immutable_access_flag : Nat := 0x04

/-- Modelled from the spec: the helper `pyarg_strings_to_int(obj, argname, default_value,
string0, value0, ...)` of `utility_functions`, of which only calls are in the sources. An
absent argument (`none`, Python `None`) gives `default_value`, a string gives the value
paired with it in the table, and any other string is rejected with an error naming the
argument. -/
def pyarg_strings_to_int (obj : Option String) (argname : String) (default_value : Nat) :
    List (String × Nat) → Except Error Nat
  | [] =>
    match obj with
    | none => .ok default_value
    | some s => .error (.invalid_argument argname s)
  | (string0, value0) :: table =>
    match obj with
    | none => .ok default_value
    | some s => if s = string0 then .ok value0
                else pyarg_strings_to_int obj argname default_value table

/-- The fields of the `array_preamble` that `array_from_ptr` fills in. -/
structure array_preamble where
  m_type : ndt_type
  m_data_pointer : Nat
  m_data_reference : PyObject
  m_flags : Nat
deriving DecidableEq, Repr

/-- The function `array_from_ptr` of `py_lowlevel_api.cpp`. `d` is the type that
`make_ndt_type_from_pyobject(tp)` produced, `ptr_val` the address
`pyobject_as_size_t(ptr)` produced, `access` the access-mode argument (`none` for
Python `None`). -/
def array_from_ptr (d : ndt_type) (ptr_val : Nat) (owner : PyObject) (access : Option String) :
    Except Error array_preamble :=
  match pyarg_strings_to_int access "access" read_access_flag
      [("readwrite", read_access_flag ||| write_access_flag),
       ("readonly", read_access_flag),
       ("immutable", read_access_flag ||| immutable_access_flag)] with
  | .error e => .error e
  | .ok access_flags =>
    if d.metadata_size ≠ 0 then
      .error (.unsupported_metadata d)
    else
      .ok { m_type := d
            m_data_pointer := ptr_val
            m_data_reference := owner
            m_flags := access_flags }

/-! ## make_assignment_ckernel and the deferred-kernel constructors -/

/-- The enumeration `deferred_ckernel_funcproto_t`. -/
inductive deferred_ckernel_funcproto_t where
  | unary_operation_funcproto
  | expr_operation_funcproto
  | binary_predicate_funcproto
deriving DecidableEq, Repr

/-- The enumeration `kernel_request_t`. -/
inductive kernel_request_t where
  | kernel_request_single
  | kernel_request_strided
deriving DecidableEq, Repr

/-- The kernel buffer a `ckernel_builder` owns: its bytes (the size is their number). -/
structure ckernel_builder where
  data : List Nat
deriving DecidableEq, Repr

/-- The callees from the dynd library and from `utility_functions` whose code is outside the
sources; the API functions are embedded relative to them. A callee that writes into the
kernel buffer returns the buffer it leaves behind together with its result or the code
of the exception it threw; `pyarg_error_mode` returns the error mode or the code of its
exception.
* `wrap_unary_as_expr_ckernel ckb ckb_offset kerntype`
* `make_assignment_kernel ckb ckb_offset dst_tp dst_metadata src_tp src_metadata kerntype`
* `make_ckernel_deferred_from_assignment dst_tp src_tp src_prop_tp funcproto errmode`
* `make_ckernel_deferred_from_property tp propname funcproto errmode`
* `pyarg_error_mode errmode_obj` -/
structure dynd_library where
  wrap_unary_as_expr_ckernel :
    ckernel_builder → Int → kernel_request_t → ckernel_builder × Except Nat Int
  make_assignment_kernel :
    ckernel_builder → Int → ndt_type → Option (List Nat) → ndt_type → Option (List Nat) →
      kernel_request_t → ckernel_builder × Except Nat Int
  make_ckernel_deferred_from_assignment :
    ndt_type → ndt_type → ndt_type → deferred_ckernel_funcproto_t → Nat →
      Except Nat ckernel_deferred
  make_ckernel_deferred_from_property :
    ndt_type → String → deferred_ckernel_funcproto_t → Nat → Except Nat ckernel_deferred
  pyarg_error_mode : PyObject → Except Nat Nat

/-- The tail of `make_assignment_ckernel` (lines 113-125): for an `expr` prototype the adapter
`wrap_unary_as_expr_ckernel` is emitted first, then `make_assignment_kernel` emits the
assignment kernel at the resulting offset and its result is the returned kernel size. -/
def make_assignment_ckernel_emit (lib : dynd_library) (out_ckb : ckernel_builder)
    (ckb_offset : Int) (dst_tp : ndt_type) (dst_metadata : Option (List Nat))
    (src_tp : ndt_type) (src_metadata : Option (List Nat))
    (funcproto : deferred_ckernel_funcproto_t) (kerntype : kernel_request_t) :
    ckernel_builder × Except Error Int :=
  -- If an expr kernel is requested, use an adapter
  let adapted : ckernel_builder × Except Nat Int :=
    if funcproto = .expr_operation_funcproto then
      lib.wrap_unary_as_expr_ckernel out_ckb ckb_offset kerntype
    else (out_ckb, .ok ckb_offset)
  match adapted with
  | (ckb1, .error code) => (ckb1, .error (.library code))
  | (ckb1, .ok ckb_offset1) =>
    match lib.make_assignment_kernel ckb1 ckb_offset1 dst_tp dst_metadata
        src_tp src_metadata kerntype with
    | (ckb2, .error code) => (ckb2, .error (.library code))
    | (ckb2, .ok kernel_size) => (ckb2, .ok kernel_size)

/-- The function `make_assignment_ckernel` of `py_lowlevel_api.cpp`. The state is the kernel
buffer behind `out_ckb`; a metadata pointer is `none` when it is `NULL` and otherwise the
words it points to; `dst_tp`, `src_tp` are the converted type objects and `funcproto_obj`,
`kerntype_obj` the two tag strings (`pystring_as_string` applied to string objects).
The result pairs the buffer after the call with the returned kernel size or the error. -/
def make_assignment_ckernel (lib : dynd_library) (out_ckb : ckernel_builder) (ckb_offset : Int)
    (dst_tp : ndt_type) (dst_metadata : Option (List Nat))
    (src_tp : ndt_type) (src_metadata : Option (List Nat))
    (funcproto_obj kerntype_obj : String) : ckernel_builder × Except Error Int :=
  if dst_metadata = none ∧ dst_tp.metadata_size ≠ 0 then
    (out_ckb, .error (.metadata_mismatch dst_tp))
  else if src_metadata = none ∧ src_tp.metadata_size ≠ 0 then
    (out_ckb, .error (.metadata_mismatch src_tp))
  else
    let kt := kerntype_obj
    let fp := funcproto_obj
    let funcproto_r : Except Error deferred_ckernel_funcproto_t :=
      if fp = "unary" then .ok .unary_operation_funcproto
      else if fp = "expr" then .ok .expr_operation_funcproto
      else .error (.invalid_function_prototype fp)
    match funcproto_r with
    | .error e => (out_ckb, .error e)
    | .ok funcproto =>
      let kerntype_r : Except Error kernel_request_t :=
        if kt = "single" then .ok .kernel_request_single
        else if kt = "strided" then .ok .kernel_request_strided
        else .error (.invalid_kernel_request_type kt)
      match kerntype_r with
      | .error e => (out_ckb, .error e)
      | .ok kerntype =>
        make_assignment_ckernel_emit lib out_ckb ckb_offset dst_tp dst_metadata
          src_tp src_metadata funcproto kerntype

/-- The function `make_ckernel_deferred_from_assignment` of `py_lowlevel_api.cpp`. -/
def make_ckernel_deferred_from_assignment (lib : dynd_library) (dst_tp src_tp : ndt_type)
    (funcproto_obj : String) (errmode_obj : PyObject) : Except Error PyObject :=
  let fp := funcproto_obj
  let funcproto_r : Except Error deferred_ckernel_funcproto_t :=
    if fp = "unary" then .ok .unary_operation_funcproto
    else if fp = "expr" then .ok .expr_operation_funcproto
    else if fp = "binary_predicate" then .ok .binary_predicate_funcproto
    else .error (.invalid_function_prototype fp)
  match funcproto_r with
  | .error e => .error e
  | .ok funcproto =>
    match lib.pyarg_error_mode errmode_obj with
    | .error code => .error (.library code)
    | .ok errmode =>
      match lib.make_ckernel_deferred_from_assignment dst_tp src_tp src_tp funcproto errmode with
      | .error code => .error (.library code)
      | .ok ckd => .ok (.WArray (.of_ckernel_deferred ckd))

/-- The function `make_ckernel_deferred_from_property` of `py_lowlevel_api.cpp`. -/
def make_ckernel_deferred_from_property (lib : dynd_library) (tp : ndt_type)
    (propname_obj : String) (funcproto_obj : String) (errmode_obj : PyObject) :
    Except Error PyObject :=
  let propname := propname_obj
  let fp := funcproto_obj
  let funcproto_r : Except Error deferred_ckernel_funcproto_t :=
    if fp = "unary" then .ok .unary_operation_funcproto
    else if fp = "expr" then .ok .expr_operation_funcproto
    else if fp = "binary_predicate" then .ok .binary_predicate_funcproto
    else .error (.invalid_function_prototype fp)
  match funcproto_r with
  | .error e => .error e
  | .ok funcproto =>
    match lib.pyarg_error_mode errmode_obj with
    | .error code => .error (.library code)
    | .ok errmode =>
      match lib.make_ckernel_deferred_from_property tp propname funcproto errmode with
      | .error code => .error (.library code)
      | .ok ckd => .ok (.WArray (.of_ckernel_deferred ckd))

/-! ## elwise_gfunc_call

`src/src/elwise_gfunc_functions.cpp`. The body of `pydynd::elwise_gfunc_call` between
`#if 0 // TODO reenable` and `#endif` is removed by the preprocessor; what is compiled is
`PyErr_SetString(PyExc_TypeError, "Elementwise gfuncs disabled presently"); return NULL;`. -/

/-- The Python exception classes named in `elwise_gfunc_functions.cpp`. -/
inductive PyExc where
  | PyExc_TypeError
  | PyExc_RuntimeError
deriving DecidableEq, Repr

/-- The error indicator of the Python interpreter: empty, or an exception class with its
message. -/
abbrev PyErr_State := Option (PyExc × String)

/-- The call `PyErr_SetString(type, message)`: the indicator is set to the given exception,
replacing whatever it held. -/
def PyErr_SetString (type : PyExc) (message : String) (_err : PyErr_State) : PyErr_State :=
  some (type, message)

/-- One kernel of an elementwise gfunc: its return type and parameter types. -/
structure elwise_kernel where
  m_returntype : ndt_type
  m_paramtypes : List ndt_type
deriving DecidableEq, Repr

/-- The `dynd::gfunc::elwise` object passed by reference: its name and registered kernels. -/
structure gfunc_elwise where
  m_name : String
  m_kernels : List elwise_kernel
deriving DecidableEq, Repr

/-- The function `pydynd::elwise_gfunc_call` as compiled. `args` are the positional arguments,
`kwargs` the keyword arguments, `err` the error indicator before the call; the result
is the error indicator after the call and the returned pointer (`none` for `NULL`). -/
def elwise_gfunc_call (_gf : gfunc_elwise) (_args : List PyObject)
    (_kwargs : List (String × PyObject)) (err : PyErr_State) : PyErr_State × Option PyObject :=
  (PyErr_SetString .PyExc_TypeError "Elementwise gfuncs disabled presently" err, none)

/-! ## Concrete inputs used to exercise the theorems -/

/-- The scalar type `float64`: no array dimension, no metadata. -/
def float64_type : ndt_type := { datashape := "float64", ndim := 0, metadata_size := 0 }

/-- The type `strided * strided * strided * float64`: three strided dimensions, each keeping a
size and a stride (two 8-byte words) in the array metadata. -/
def cube_type : ndt_type :=
  { datashape := "strided * strided * strided * float64", ndim := 3, metadata_size := 48 }

/-- A deferred kernel `(float64) -> float64`, as an elementwise reduction such as a sum is. -/
def sum_ckd : ckernel_deferred :=
  { data_dynd_types_0 := float64_type
    data_dynd_types_1 := float64_type
    data_dynd_types_rest := [] }

/-- The type `strided * float64`: one strided dimension, with its size and stride (two 8-byte
words) in the array metadata. -/
def row_type : ndt_type :=
  { datashape := "strided * float64", ndim := 1, metadata_size := 16 }

/-- A deferred kernel `(strided * float64) -> float64`, whose source operand has one
dimension. -/
def row_ckd : ckernel_deferred :=
  { data_dynd_types_0 := float64_type
    data_dynd_types_1 := row_type
    data_dynd_types_rest := [] }

/-- Flag storage whose previous content is all ones. -/
def stale_storage : Nat → Bool := fun _ => true

/-- A stand-in for the library callees: the adapter writes one marker byte and advances the
offset, the assignment kernel writes one marker byte and reports a kernel of 8 bytes, the
deferred-kernel makers record their operand types, every error mode object is accepted. -/
def sample_library : dynd_library where
  wrap_unary_as_expr_ckernel := fun ckb ckb_offset _ =>
    ({ data := ckb.data ++ [0xE0] }, .ok (ckb_offset + 1))
  make_assignment_kernel := fun ckb _ _ _ _ _ _ =>
    ({ data := ckb.data ++ [0xA0] }, .ok 8)
  make_ckernel_deferred_from_assignment := fun dst_tp src_tp _ _ _ =>
    .ok { data_dynd_types_0 := dst_tp, data_dynd_types_1 := src_tp, data_dynd_types_rest := [] }
  make_ckernel_deferred_from_property := fun tp _ _ _ =>
    .ok { data_dynd_types_0 := tp, data_dynd_types_1 := tp, data_dynd_types_rest := [] }
  pyarg_error_mode := fun _ => .ok 0

/-- A kernel buffer that already holds three bytes. -/
def sample_ckb : ckernel_builder := { data := [1, 2, 3] }

/-! ## Theorems: axis resolution in lift_reduction_ckernel_deferred -/

theorem foldl_set_length (b : Bool) (l : List Nat) (flags : List Bool) :
    (l.foldl (fun fl i => fl.set i b) flags).length = flags.length := by
  induction l generalizing flags with
  | nil => rfl
  | cons i l ih => simp [List.foldl_cons, ih]

theorem foldl_set_getElem? (b : Bool) (l : List Nat) (flags : List Bool) (j : Nat)
    (hj : j < flags.length) :
    (l.foldl (fun fl i => fl.set i b) flags)[j]? = if j ∈ l then some b else flags[j]? := by
  induction l generalizing flags with
  | nil => simp
  | cons i l ih =>
    have hlen : j < (flags.set i b).length := by simpa using hj
    rw [List.foldl_cons, ih _ hlen]
    by_cases hjl : j ∈ l
    · simp [hjl]
    · by_cases hij : i = j
      · subst hij
        simp [hjl, hj]
      · have hji : ¬ j = i := fun h => hij h.symm
        simp [hjl, hji, List.getElem?_set_ne hij]

theorem shortvector_bool_length (uninit : Nat → Bool) (n : Int) :
    (shortvector_bool uninit n).length = n.toNat := by
  simp [shortvector_bool]

theorem reduce_all_axes_length (n : Int) (flags : List Bool) :
    (reduce_all_axes n flags).length = flags.length := by
  simp [reduce_all_axes, foldl_set_length]

theorem reduce_all_axes_eq (n : Int) (flags : List Bool) (h : flags.length = n.toNat) :
    reduce_all_axes n flags = List.replicate n.toNat true := by
  apply List.ext_getElem?
  intro j
  by_cases hj : j < n.toNat
  · have hj2 : j < flags.length := by omega
    simp [reduce_all_axes, foldl_set_getElem? true _ flags j hj2, hj, List.getElem?_replicate]
  · have h1 : (reduce_all_axes n flags).length ≤ j := by
      rw [reduce_all_axes_length]; omega
    rw [List.getElem?_eq_none h1]
    simp [List.getElem?_replicate, hj]

theorem memset_zero_eq (n : Int) (flags : List Bool) (h : flags.length = n.toNat)
    (hn : 0 ≤ n) : memset_zero n flags = .ok (List.replicate n.toNat false) := by
  have hc : memset_count n = n.toNat := by
    unfold memset_count
    rw [if_neg (by omega)]
  unfold memset_zero
  rw [hc, if_pos (by omega)]
  congr 1
  apply List.ext_getElem?
  intro j
  by_cases hj : j < n.toNat
  · have hj2 : j < flags.length := by omega
    simp [foldl_set_getElem? false _ flags j hj2, hj, List.getElem?_replicate]
  · have h1 : ((List.range n.toNat).foldl (fun fl i => fl.set i false) flags).length ≤ j := by
      rw [foldl_set_length]; omega
    rw [List.getElem?_eq_none h1]
    simp [List.getElem?_replicate, hj]

/-- For a non-negative count the explicit-axis branch is the axis loop run on cleared flags. -/
theorem resolve_axis_explicit (uninit : Nat → Bool) (n : Int) (axis_vec : List Int)
    (hn : 0 ≤ n) :
    resolve_axis uninit n (some axis_vec) =
      axis_loop n axis_vec (List.replicate n.toNat false) := by
  simp only [resolve_axis, memset_zero_eq n _ (shortvector_bool_length uninit n) hn]

theorem axis_loop_error_iff (n : Int) (axis_vec : List Int) (flags : List Bool) :
    (∃ ax nd, axis_loop n axis_vec flags = .error (.axis_out_of_bounds ax nd)) ↔
      ∃ a ∈ axis_vec, ¬ (-n ≤ a ∧ a < n) := by
  induction axis_vec generalizing flags with
  | nil => simp [axis_loop]
  | cons a rest ih =>
    by_cases hb : a < -n ∨ a ≥ n
    · constructor
      · intro _
        exact ⟨a, by simp, by omega⟩
      · intro _
        exact ⟨a, n, by simp [axis_loop, hb]⟩
    · have hin : -n ≤ a ∧ a < n := by omega
      have hstep : axis_loop n (a :: rest) flags =
          axis_loop n rest (flags.set (if a < 0 then a + n else a).toNat true) := by
        simp only [axis_loop, hb, if_false]
      rw [hstep, ih]
      constructor
      · rintro ⟨x, hx, hxn⟩
        exact ⟨x, List.mem_cons_of_mem _ hx, hxn⟩
      · rintro ⟨x, hx, hxn⟩
        rcases List.mem_cons.mp hx with rfl | hx
        · exact absurd hin hxn
        · exact ⟨x, hx, hxn⟩

theorem axis_loop_ok (n : Int) (axis_vec : List Int) (flags : List Bool)
    (hin : ∀ a ∈ axis_vec, -n ≤ a ∧ a < n) :
    ∃ out, axis_loop n axis_vec flags = .ok out ∧ out.length = flags.length ∧
      ∀ j : Nat, j < flags.length →
        (out[j]? = some true ↔
          (flags[j]? = some true ∨
            ∃ a ∈ axis_vec, (0 ≤ a ∧ a = (j : Int)) ∨ (a < 0 ∧ a + n = (j : Int)))) := by
  induction axis_vec generalizing flags with
  | nil => exact ⟨flags, rfl, rfl, by simp⟩
  | cons a rest ih =>
    have ha : -n ≤ a ∧ a < n := hin a (by simp)
    have hb : ¬ (a < -n ∨ a ≥ n) := by omega
    obtain ⟨out, hout, hlen, hflags⟩ :=
      ih (flags.set (if a < 0 then a + n else a).toNat true)
        (fun x hx => hin x (List.mem_cons_of_mem _ hx))
    refine ⟨out, by simp only [axis_loop, hb, if_false]; exact hout, by simpa using hlen, ?_⟩
    intro j hj
    rw [hflags j (by simpa using hj)]
    by_cases hja : (if a < 0 then a + n else a).toNat = j
    · have hleft : (flags.set (if a < 0 then a + n else a).toNat true)[j]? = some true := by
        rw [hja]; simp [hj]
      have hright : (0 ≤ a ∧ a = (j : Int)) ∨ (a < 0 ∧ a + n = (j : Int)) := by
        split_ifs at hja <;> omega
      simp only [hleft, true_or, List.mem_cons, exists_eq_or_imp, hright, or_true]
    · have hleft : (flags.set (if a < 0 then a + n else a).toNat true)[j]? = flags[j]? :=
        List.getElem?_set_ne hja
      have hright : ¬ ((0 ≤ a ∧ a = (j : Int)) ∨ (a < 0 ∧ a + n = (j : Int))) := by
        split_ifs at hja <;> omega
      simp only [hleft, List.mem_cons, exists_eq_or_imp, hright, false_or]

theorem py_bool_arg_error (argname : String) (obj : PyObject) (e : Error)
    (h : py_bool_arg argname obj = .error e) : ∃ msg, e = .type_error msg := by
  cases obj <;> simp [py_bool_arg] at h <;> exact ⟨_, h.symm⟩

/-- Once the two array arguments before the axis block are accepted, the function fails with
an axis error exactly when the axis block does: everything after it only raises type
errors. -/
theorem lift_reduction_axis_error_iff (uninit : Nat → Bool) (ckd : ckernel_deferred)
    (lifted_type : ndt_type) (dst_initialization_obj : PyObject) (axis_obj : Option (List Int))
    (keepdims_obj associative_obj commutative_obj right_associative_obj : PyObject)
    (reduction_identity_obj : PyObject)
    (hdst : dst_initialization_obj = .Py_None ∨
      is_ckernel_deferred_array dst_initialization_obj = true) (ax nd : Int) :
    lift_reduction_ckernel_deferred uninit (.WArray (.of_ckernel_deferred ckd)) lifted_type
        dst_initialization_obj axis_obj keepdims_obj associative_obj commutative_obj
        right_associative_obj reduction_identity_obj = .error (.axis_out_of_bounds ax nd) ↔
      resolve_axis uninit ((lifted_type.ndim : Int) - (ckd.data_dynd_types_1.ndim : Int))
        axis_obj = .error (.axis_out_of_bounds ax nd) := by
  have hd : ∃ d, (match dst_initialization_obj with
      | .WArray (.of_ckernel_deferred d) => (.ok (some d) : Except Error (Option ckernel_deferred))
      | .Py_None => .ok none
      | _ => .error (.type_error
          "dst_initialization must be None or an nd.array of type ckernel_deferred")) = .ok d := by
    rcases hdst with rfl | h
    · exact ⟨none, rfl⟩
    · cases dst_initialization_obj with
      | WArray v =>
        cases v with
        | of_ckernel_deferred d => exact ⟨some d, rfl⟩
        | of_type tp => simp [is_ckernel_deferred_array] at h
      | _ => simp [is_ckernel_deferred_array] at h
  obtain ⟨d, hd⟩ := hd
  simp only [lift_reduction_ckernel_deferred, hd]
  cases hr : resolve_axis uninit ((lifted_type.ndim : Int) - (ckd.data_dynd_types_1.ndim : Int))
      axis_obj with
  | error e => simp
  | ok flags =>
    simp only
    cases hk : py_bool_arg "keepdims" keepdims_obj with
    | error e => obtain ⟨msg, rfl⟩ := py_bool_arg_error _ _ _ hk; simp
    | ok k =>
      cases ha : py_bool_arg "associative" associative_obj with
      | error e => obtain ⟨msg, rfl⟩ := py_bool_arg_error _ _ _ ha; simp
      | ok a =>
        cases hc : py_bool_arg "commutative" commutative_obj with
        | error e => obtain ⟨msg, rfl⟩ := py_bool_arg_error _ _ _ hc; simp
        | ok c =>
          cases hra : py_bool_arg "right_associative" right_associative_obj with
          | error e => obtain ⟨msg, rfl⟩ := py_bool_arg_error _ _ _ hra; simp
          | ok r => cases reduction_identity_obj <;> simp

theorem is_ckernel_deferred_array_eq (obj : PyObject)
    (h : is_ckernel_deferred_array obj = true) :
    ∃ d, obj = .WArray (.of_ckernel_deferred d) := by
  cases obj with
  | WArray v =>
    cases v with
    | of_ckernel_deferred d => exact ⟨d, rfl⟩
    | of_type tp => simp [is_ckernel_deferred_array] at h
  | _ => simp [is_ckernel_deferred_array] at h

/-- With every argument other than the axis accepted, the function reaches the library call
with the flags the axis block computed. -/
theorem lift_reduction_returns (uninit : Nat → Bool) (ckd : ckernel_deferred)
    (lifted_type : ndt_type) (dst_initialization_obj : PyObject) (axis_obj : Option (List Int))
    (keepdims_obj associative_obj commutative_obj right_associative_obj : PyObject)
    (reduction_identity_obj : PyObject) (flags : List Bool)
    (hdst : dst_initialization_obj = .Py_None ∨
      is_ckernel_deferred_array dst_initialization_obj = true)
    (hres : resolve_axis uninit ((lifted_type.ndim : Int) - (ckd.data_dynd_types_1.ndim : Int))
      axis_obj = .ok flags)
    (hk : keepdims_obj = .Py_True ∨ keepdims_obj = .Py_False)
    (ha : associative_obj = .Py_True ∨ associative_obj = .Py_False)
    (hc : commutative_obj = .Py_True ∨ commutative_obj = .Py_False)
    (hr : right_associative_obj = .Py_True ∨ right_associative_obj = .Py_False)
    (hid : reduction_identity_obj = .Py_None ∨ ∃ v, reduction_identity_obj = .WArray v) :
    ∃ call, lift_reduction_ckernel_deferred uninit (.WArray (.of_ckernel_deferred ckd))
        lifted_type dst_initialization_obj axis_obj keepdims_obj associative_obj commutative_obj
        right_associative_obj reduction_identity_obj = .ok call ∧
      call.reduction_ndim = (lifted_type.ndim : Int) - (ckd.data_dynd_types_1.ndim : Int) ∧
      call.reduction_dimflags = flags := by
  have hdst2 : dst_initialization_obj = .Py_None ∨
      ∃ d, dst_initialization_obj = .WArray (.of_ckernel_deferred d) :=
    hdst.imp id (is_ckernel_deferred_array_eq _)
  rcases hdst2 with rfl | ⟨d, rfl⟩ <;> rcases hk with rfl | rfl <;> rcases ha with rfl | rfl <;>
    rcases hc with rfl | rfl <;> rcases hr with rfl | rfl <;>
    rcases hid with rfl | ⟨v, rfl⟩ <;>
    simp [lift_reduction_ckernel_deferred, py_bool_arg, hres]

/-- A call that reaches the library carries the difference of the two dimension counts and
the flags of the axis block. -/
theorem lift_reduction_ok_flags (uninit : Nat → Bool) (ckd : ckernel_deferred)
    (lifted_type : ndt_type) (dst_initialization_obj : PyObject) (axis_obj : Option (List Int))
    (keepdims_obj associative_obj commutative_obj right_associative_obj : PyObject)
    (reduction_identity_obj : PyObject) (call : lift_reduction_call)
    (h : lift_reduction_ckernel_deferred uninit (.WArray (.of_ckernel_deferred ckd))
        lifted_type dst_initialization_obj axis_obj keepdims_obj associative_obj commutative_obj
        right_associative_obj reduction_identity_obj = .ok call) :
    call.reduction_ndim = (lifted_type.ndim : Int) - (ckd.data_dynd_types_1.ndim : Int) ∧
      resolve_axis uninit ((lifted_type.ndim : Int) - (ckd.data_dynd_types_1.ndim : Int))
        axis_obj = .ok call.reduction_dimflags := by
  unfold lift_reduction_ckernel_deferred at h
  simp only at h
  split at h
  · exact absurd h (by simp)
  · split at h
    · exact absurd h (by simp)
    · split at h
      · exact absurd h (by simp)
      · split at h
        · exact absurd h (by simp)
        · split at h
          · exact absurd h (by simp)
          · split at h
            · exact absurd h (by simp)
            · split at h
              · exact absurd h (by simp)
              · injection h with h
                subst h
                exact ⟨rfl, by assumption⟩

/-- C1 as stated fails, at two inputs with an out-of-bounds axis.
First, with `reduction_ndim = 3` and the axis list `[3]` but a `dst_initialization` argument
that is neither `None` nor a deferred kernel, the call fails with the type error of lines
248-252, which is raised before the axis block, and not with the axis error.
Second, with a scalar lifted type and a kernel over a one-dimensional operand
(`reduction_ndim = -1`) and the axis list `[0]`, the byte count handed to `memset` wraps to
`2^64 - 1` and the storage is overrun before the bounds test is reached.
Hence the equivalence of the claim does not hold for all arguments. -/
theorem lift_reduction_axis_out_of_bounds_counterexample :
    (∃ a ∈ ([3] : List Int),
      ¬ (-((cube_type.ndim : Int) - (sum_ckd.data_dynd_types_1.ndim : Int)) ≤ a ∧
          a < (cube_type.ndim : Int) - (sum_ckd.data_dynd_types_1.ndim : Int))) ∧
    lift_reduction_ckernel_deferred stale_storage (.WArray (.of_ckernel_deferred sum_ckd))
      cube_type .other (some [3]) .Py_False .Py_True .Py_True .Py_False .Py_None =
        .error (.type_error
          "dst_initialization must be None or an nd.array of type ckernel_deferred") ∧
    (float64_type.ndim : Int) - (row_ckd.data_dynd_types_1.ndim : Int) = -1 ∧
    (∃ a ∈ ([0] : List Int),
      ¬ (-((float64_type.ndim : Int) - (row_ckd.data_dynd_types_1.ndim : Int)) ≤ a ∧
          a < (float64_type.ndim : Int) - (row_ckd.data_dynd_types_1.ndim : Int))) ∧
    lift_reduction_ckernel_deferred stale_storage (.WArray (.of_ckernel_deferred row_ckd))
      float64_type .Py_None (some [0]) .Py_False .Py_True .Py_True .Py_False .Py_None =
        .error (.memset_overrun (2 ^ 64 - 1) 0) ∧
    ¬ (∀ (uninit : Nat → Bool) (ckd : ckernel_deferred) (lifted_type : ndt_type)
        (dst_initialization_obj : PyObject) (axis_vec : List Int)
        (keepdims_obj associative_obj commutative_obj right_associative_obj : PyObject)
        (reduction_identity_obj : PyObject),
        (∃ ax nd, lift_reduction_ckernel_deferred uninit (.WArray (.of_ckernel_deferred ckd))
          lifted_type dst_initialization_obj (some axis_vec) keepdims_obj associative_obj
          commutative_obj right_associative_obj reduction_identity_obj =
            .error (.axis_out_of_bounds ax nd)) ↔
        ∃ a ∈ axis_vec,
          ¬ (-((lifted_type.ndim : Int) - (ckd.data_dynd_types_1.ndim : Int)) ≤ a ∧
              a < (lifted_type.ndim : Int) - (ckd.data_dynd_types_1.ndim : Int))) := by
  have hoob : ∃ a ∈ ([3] : List Int),
      ¬ (-((cube_type.ndim : Int) - (sum_ckd.data_dynd_types_1.ndim : Int)) ≤ a ∧
          a < (cube_type.ndim : Int) - (sum_ckd.data_dynd_types_1.ndim : Int)) := by decide
  have heval : lift_reduction_ckernel_deferred stale_storage
      (.WArray (.of_ckernel_deferred sum_ckd)) cube_type .other (some [3]) .Py_False .Py_True
      .Py_True .Py_False .Py_None = .error (.type_error
        "dst_initialization must be None or an nd.array of type ckernel_deferred") := rfl
  refine ⟨hoob, heval, by decide, by decide, rfl, ?_⟩
  intro hall
  obtain ⟨ax, nd, h⟩ := (hall stale_storage sum_ckd cube_type .other [3] .Py_False .Py_True
    .Py_True .Py_False .Py_None).mpr hoob
  rw [heval] at h
  cases h

/-- C1 (amended): in `lift_reduction_ckernel_deferred` (exported as `lift_reduction_kernel`),
when the elementwise reduction argument is a deferred kernel, the `dst_initialization`
argument is `None` or a deferred kernel, and
`reduction_ndim = lifted_type.ndim - data_dynd_types[1].ndim` is not negative, then for
every explicit axis list the call fails with the axis-out-of-bounds error if and only if
some axis `a` of the list does not satisfy `-reduction_ndim <= a < reduction_ndim`. -/
theorem lift_reduction_axis_out_of_bounds_iff (uninit : Nat → Bool) (ckd : ckernel_deferred)
    (lifted_type : ndt_type) (dst_initialization_obj : PyObject) (axis_vec : List Int)
    (keepdims_obj associative_obj commutative_obj right_associative_obj : PyObject)
    (reduction_identity_obj : PyObject)
    (hn : 0 ≤ (lifted_type.ndim : Int) - (ckd.data_dynd_types_1.ndim : Int))
    (hdst : dst_initialization_obj = .Py_None ∨
      is_ckernel_deferred_array dst_initialization_obj = true) :
    (∃ ax nd, lift_reduction_ckernel_deferred uninit (.WArray (.of_ckernel_deferred ckd))
        lifted_type dst_initialization_obj (some axis_vec) keepdims_obj associative_obj
        commutative_obj right_associative_obj reduction_identity_obj =
          .error (.axis_out_of_bounds ax nd)) ↔
      ∃ a ∈ axis_vec,
        ¬ (-((lifted_type.ndim : Int) - (ckd.data_dynd_types_1.ndim : Int)) ≤ a ∧
            a < (lifted_type.ndim : Int) - (ckd.data_dynd_types_1.ndim : Int)) := by
  simp only [lift_reduction_axis_error_iff uninit ckd lifted_type dst_initialization_obj
    (some axis_vec) keepdims_obj associative_obj commutative_obj right_associative_obj
    reduction_identity_obj hdst, resolve_axis_explicit uninit _ axis_vec hn]
  exact axis_loop_error_iff _ axis_vec _

/-- C1 (amended) at `reduction_ndim = 3`: the hypotheses hold, the equivalence holds at the
list `[-1, 3]`, the lists `[3]` and `[-4]` are rejected with the axis error, and the list
`[-1]` is not. -/
theorem lift_reduction_axis_out_of_bounds_iff_witness :
    (0 ≤ (cube_type.ndim : Int) - (sum_ckd.data_dynd_types_1.ndim : Int)) ∧
    (PyObject.Py_None = PyObject.Py_None ∨
      is_ckernel_deferred_array PyObject.Py_None = true) ∧
    ((∃ ax nd, lift_reduction_ckernel_deferred stale_storage
        (.WArray (.of_ckernel_deferred sum_ckd)) cube_type .Py_None (some [-1, 3]) .Py_False
        .Py_True .Py_True .Py_False .Py_None = .error (.axis_out_of_bounds ax nd)) ↔
      ∃ a ∈ ([-1, 3] : List Int),
        ¬ (-((cube_type.ndim : Int) - (sum_ckd.data_dynd_types_1.ndim : Int)) ≤ a ∧
            a < (cube_type.ndim : Int) - (sum_ckd.data_dynd_types_1.ndim : Int))) ∧
    lift_reduction_ckernel_deferred stale_storage (.WArray (.of_ckernel_deferred sum_ckd))
      cube_type .Py_None (some [3]) .Py_False .Py_True .Py_True .Py_False .Py_None =
        .error (.axis_out_of_bounds 3 3) ∧
    lift_reduction_ckernel_deferred stale_storage (.WArray (.of_ckernel_deferred sum_ckd))
      cube_type .Py_None (some [-4]) .Py_False .Py_True .Py_True .Py_False .Py_None =
        .error (.axis_out_of_bounds (-4) 3) ∧
    (lift_reduction_ckernel_deferred stale_storage (.WArray (.of_ckernel_deferred sum_ckd))
      cube_type .Py_None (some [-1]) .Py_False .Py_True .Py_True .Py_False .Py_None).isOk
        = true :=
  ⟨by decide, Or.inl rfl,
   lift_reduction_axis_out_of_bounds_iff stale_storage sum_ckd cube_type .Py_None [-1, 3]
     .Py_False .Py_True .Py_True .Py_False .Py_None (by decide) (Or.inl rfl),
   rfl, rfl, rfl⟩

/-- C2: in `lift_reduction_ckernel_deferred`, for `reduction_ndim >= 0` and an explicit axis
list whose entries are all in bounds (the other arguments being accepted), the call
reaches the library with a flag vector of length `reduction_ndim` in which flag `i` is
true if and only if some entry `a` has `a = i` (for `a >= 0`) or `a + reduction_ndim = i`
(for `a < 0`), and is false otherwise. -/
theorem lift_reduction_explicit_axis_flags (uninit : Nat → Bool) (ckd : ckernel_deferred)
    (lifted_type : ndt_type) (dst_initialization_obj : PyObject) (axis_vec : List Int)
    (keepdims_obj associative_obj commutative_obj right_associative_obj : PyObject)
    (reduction_identity_obj : PyObject)
    (hn : 0 ≤ (lifted_type.ndim : Int) - (ckd.data_dynd_types_1.ndim : Int))
    (hin : ∀ a ∈ axis_vec,
      -((lifted_type.ndim : Int) - (ckd.data_dynd_types_1.ndim : Int)) ≤ a ∧
        a < (lifted_type.ndim : Int) - (ckd.data_dynd_types_1.ndim : Int))
    (hdst : dst_initialization_obj = .Py_None ∨
      is_ckernel_deferred_array dst_initialization_obj = true)
    (hk : keepdims_obj = .Py_True ∨ keepdims_obj = .Py_False)
    (ha : associative_obj = .Py_True ∨ associative_obj = .Py_False)
    (hc : commutative_obj = .Py_True ∨ commutative_obj = .Py_False)
    (hr : right_associative_obj = .Py_True ∨ right_associative_obj = .Py_False)
    (hid : reduction_identity_obj = .Py_None ∨ ∃ v, reduction_identity_obj = .WArray v) :
    ∃ call, lift_reduction_ckernel_deferred uninit (.WArray (.of_ckernel_deferred ckd))
        lifted_type dst_initialization_obj (some axis_vec) keepdims_obj associative_obj
        commutative_obj right_associative_obj reduction_identity_obj = .ok call ∧
      call.reduction_ndim = (lifted_type.ndim : Int) - (ckd.data_dynd_types_1.ndim : Int) ∧
      (call.reduction_dimflags.length : Int) = call.reduction_ndim ∧
      ∀ i : Nat, (i : Int) < call.reduction_ndim →
        (call.reduction_dimflags[i]? = some true ↔
          ∃ a ∈ axis_vec, (0 ≤ a ∧ a = (i : Int)) ∨
            (a < 0 ∧ a + call.reduction_ndim = (i : Int))) ∧
        (call.reduction_dimflags[i]? = some false ↔
          ¬ ∃ a ∈ axis_vec, (0 ≤ a ∧ a = (i : Int)) ∨
            (a < 0 ∧ a + call.reduction_ndim = (i : Int))) := by
  obtain ⟨flags, hflags, hlen, hspec⟩ :=
    axis_loop_ok ((lifted_type.ndim : Int) - (ckd.data_dynd_types_1.ndim : Int)) axis_vec
      (List.replicate _ false) hin
  have hres : resolve_axis uninit
      ((lifted_type.ndim : Int) - (ckd.data_dynd_types_1.ndim : Int)) (some axis_vec)
        = .ok flags := by
    rw [resolve_axis_explicit uninit _ axis_vec hn]
    exact hflags
  obtain ⟨call, hcall, hnd, hfl⟩ :=
    lift_reduction_returns uninit ckd lifted_type dst_initialization_obj (some axis_vec)
      keepdims_obj associative_obj commutative_obj right_associative_obj reduction_identity_obj
      flags hdst hres hk ha hc hr hid
  refine ⟨call, hcall, hnd, ?_, ?_⟩
  · rw [hfl, hlen, hnd, List.length_replicate]
    exact Int.toNat_of_nonneg hn
  · intro i hi
    rw [hnd] at hi ⊢
    have hi2 : i < (List.replicate
        ((lifted_type.ndim : Int) - (ckd.data_dynd_types_1.ndim : Int)).toNat false).length := by
      rw [List.length_replicate]; omega
    have hrep : (List.replicate
        ((lifted_type.ndim : Int) - (ckd.data_dynd_types_1.ndim : Int)).toNat false)[i]?
          = some false := by
      rw [List.getElem?_eq_getElem hi2, List.getElem_replicate]
    have htrue := hspec i hi2
    rw [hrep] at htrue
    simp only [reduceCtorEq, false_or, Option.some.injEq, Bool.false_eq_true] at htrue
    rw [hfl]
    refine ⟨htrue, ?_⟩
    rw [← htrue]
    have hlt : i < flags.length := by rw [hlen]; exact hi2
    rw [List.getElem?_eq_getElem hlt]
    cases flags[i] <;> simp

/-- C2 at `reduction_ndim = 3` with the axis list `[-1]`: the hypotheses hold, the theorem
gives the characterisation of the flags, and the flags are exactly `[false, false, true]`
(only flag 2 is set), whatever the flag storage held before. -/
theorem lift_reduction_explicit_axis_flags_witness :
    (0 ≤ (cube_type.ndim : Int) - (sum_ckd.data_dynd_types_1.ndim : Int)) ∧
    (∀ a ∈ ([-1] : List Int),
      -((cube_type.ndim : Int) - (sum_ckd.data_dynd_types_1.ndim : Int)) ≤ a ∧
        a < (cube_type.ndim : Int) - (sum_ckd.data_dynd_types_1.ndim : Int)) ∧
    (∃ call, lift_reduction_ckernel_deferred stale_storage
        (.WArray (.of_ckernel_deferred sum_ckd)) cube_type .Py_None (some [-1]) .Py_False
        .Py_True .Py_True .Py_False .Py_None = .ok call ∧
      call.reduction_ndim = (cube_type.ndim : Int) - (sum_ckd.data_dynd_types_1.ndim : Int) ∧
      (call.reduction_dimflags.length : Int) = call.reduction_ndim ∧
      ∀ i : Nat, (i : Int) < call.reduction_ndim →
        (call.reduction_dimflags[i]? = some true ↔
          ∃ a ∈ ([-1] : List Int), (0 ≤ a ∧ a = (i : Int)) ∨
            (a < 0 ∧ a + call.reduction_ndim = (i : Int))) ∧
        (call.reduction_dimflags[i]? = some false ↔
          ¬ ∃ a ∈ ([-1] : List Int), (0 ≤ a ∧ a = (i : Int)) ∨
            (a < 0 ∧ a + call.reduction_ndim = (i : Int)))) ∧
    (lift_reduction_ckernel_deferred stale_storage (.WArray (.of_ckernel_deferred sum_ckd))
        cube_type .Py_None (some [-1]) .Py_False .Py_True .Py_True .Py_False .Py_None).toOption.map
          (fun call => call.reduction_dimflags) = some [false, false, true] :=
  ⟨by decide, by decide,
   lift_reduction_explicit_axis_flags stale_storage sum_ckd cube_type .Py_None [-1]
     .Py_False .Py_True .Py_True .Py_False .Py_None (by decide) (by decide) (Or.inl rfl)
     (Or.inr rfl) (Or.inl rfl) (Or.inl rfl) (Or.inr rfl) (Or.inl rfl),
   rfl⟩

/-- C3: in `lift_reduction_ckernel_deferred`, when the axis argument is `None`, the axis block
marks every one of the `reduction_ndim` axes as reduced (all flags true, whatever the
storage held), with `reduction_ndim` the number of dimensions of the lifted type minus
that of the source operand type `data_dynd_types[1]` of the elementwise kernel; a call
that reaches the library carries exactly these flags, and no argument values make the
call fail with the axis-out-of-bounds error. -/
theorem lift_reduction_axis_none (uninit : Nat → Bool) (elwise_reduction_obj : PyObject)
    (ckd : ckernel_deferred) (lifted_type : ndt_type) (dst_initialization_obj : PyObject)
    (keepdims_obj associative_obj commutative_obj right_associative_obj : PyObject)
    (reduction_identity_obj : PyObject) :
    (∀ ax nd, lift_reduction_ckernel_deferred uninit elwise_reduction_obj lifted_type
        dst_initialization_obj none keepdims_obj associative_obj commutative_obj
        right_associative_obj reduction_identity_obj ≠ .error (.axis_out_of_bounds ax nd)) ∧
    resolve_axis uninit ((lifted_type.ndim : Int) - (ckd.data_dynd_types_1.ndim : Int)) none =
      .ok (List.replicate
        ((lifted_type.ndim : Int) - (ckd.data_dynd_types_1.ndim : Int)).toNat true) ∧
    (∀ call, lift_reduction_ckernel_deferred uninit (.WArray (.of_ckernel_deferred ckd))
        lifted_type dst_initialization_obj none keepdims_obj associative_obj commutative_obj
        right_associative_obj reduction_identity_obj = .ok call →
      call.reduction_ndim = (lifted_type.ndim : Int) - (ckd.data_dynd_types_1.ndim : Int) ∧
      call.reduction_dimflags = List.replicate call.reduction_ndim.toNat true) := by
  have hnone : ∀ n : Int, resolve_axis uninit n none = .ok (List.replicate n.toNat true) := by
    intro n
    simp only [resolve_axis]
    rw [reduce_all_axes_eq _ _ (shortvector_bool_length _ _)]
  refine ⟨?_, hnone _, ?_⟩
  · intro ax nd h
    cases elwise_reduction_obj with
    | WArray v =>
      cases v with
      | of_ckernel_deferred k =>
        by_cases hdst : dst_initialization_obj = .Py_None ∨
            is_ckernel_deferred_array dst_initialization_obj = true
        · rw [lift_reduction_axis_error_iff uninit k lifted_type dst_initialization_obj none
            keepdims_obj associative_obj commutative_obj right_associative_obj
            reduction_identity_obj hdst, hnone] at h
          exact absurd h (by simp)
        · cases dst_initialization_obj with
          | WArray w =>
            cases w with
            | of_ckernel_deferred d => simp [is_ckernel_deferred_array] at hdst
            | of_type tp => simp [lift_reduction_ckernel_deferred] at h
          | Py_None => simp at hdst
          | _ => simp [lift_reduction_ckernel_deferred] at h
      | of_type tp => simp [lift_reduction_ckernel_deferred] at h
    | _ => simp [lift_reduction_ckernel_deferred] at h
  · intro call hcall
    obtain ⟨hnd, hfl⟩ := lift_reduction_ok_flags uninit ckd lifted_type dst_initialization_obj
      none keepdims_obj associative_obj commutative_obj right_associative_obj
      reduction_identity_obj call hcall
    rw [hnone] at hfl
    injection hfl with hfl
    exact ⟨hnd, by rw [hnd]; exact hfl.symm⟩

/-- C3 on a reduction of a three-dimensional `float64` array with a scalar kernel and axis
`None`: the call reaches the library with `reduction_ndim = 3` and the flags `[true, true, true]`. -/
theorem lift_reduction_axis_none_witness :
    lift_reduction_ckernel_deferred stale_storage (.WArray (.of_ckernel_deferred sum_ckd))
        cube_type .Py_None none .Py_False .Py_True .Py_True .Py_False .Py_None =
      .ok { elwise_reduction := sum_ckd, lifted_type := cube_type, dst_initialization := none,
            keepdims := false, reduction_ndim := 3, reduction_dimflags := [true, true, true],
            associative := true, commutative := true, right_associative := false,
            reduction_identity := none } ∧
    ((3 : Int) = (cube_type.ndim : Int) - (sum_ckd.data_dynd_types_1.ndim : Int) ∧
      [true, true, true] = List.replicate (3 : Int).toNat true) :=
  ⟨rfl,
   (lift_reduction_axis_none stale_storage .Py_None sum_ckd cube_type .Py_None .Py_False
     .Py_True .Py_True .Py_False .Py_None).2.2 _ rfl⟩

theorem axis_hits_iff (n a : Int) (j : Nat) :
    ((0 ≤ a ∧ a = (j : Int)) ∨ (a < 0 ∧ a + n = (j : Int))) ↔
      (if a < 0 then a + n else a) = (j : Int) := by
  split_ifs <;> omega

/-- For a non-negative count, two in-bounds axis lists that resolve to the same axes give the
same flags, whatever the flag storage held before each call. -/
theorem resolve_axis_same_axes (uninit1 uninit2 : Nat → Bool) (n : Int) (l1 l2 : List Int)
    (hn : 0 ≤ n) (h1 : ∀ a ∈ l1, -n ≤ a ∧ a < n) (h2 : ∀ b ∈ l2, -n ≤ b ∧ b < n)
    (h12 : ∀ a ∈ l1, ∃ b ∈ l2, (if b < 0 then b + n else b) = (if a < 0 then a + n else a))
    (h21 : ∀ b ∈ l2, ∃ a ∈ l1, (if a < 0 then a + n else a) = (if b < 0 then b + n else b)) :
    ∃ flags, resolve_axis uninit1 n (some l1) = .ok flags ∧
      resolve_axis uninit2 n (some l2) = .ok flags := by
  obtain ⟨o1, ho1, hl1, hs1⟩ := axis_loop_ok n l1 (List.replicate n.toNat false) h1
  obtain ⟨o2, ho2, hl2, hs2⟩ := axis_loop_ok n l2 (List.replicate n.toNat false) h2
  rw [resolve_axis_explicit uninit1 n l1 hn, resolve_axis_explicit uninit2 n l2 hn]
  have hsame : ∀ j : Nat, (∃ a ∈ l1, (0 ≤ a ∧ a = (j : Int)) ∨ (a < 0 ∧ a + n = (j : Int))) ↔
      (∃ b ∈ l2, (0 ≤ b ∧ b = (j : Int)) ∨ (b < 0 ∧ b + n = (j : Int))) := by
    intro j
    constructor
    · rintro ⟨a, ha, hp⟩
      obtain ⟨b, hb, hab⟩ := h12 a ha
      exact ⟨b, hb, (axis_hits_iff n b j).mpr (hab.trans ((axis_hits_iff n a j).mp hp))⟩
    · rintro ⟨b, hb, hp⟩
      obtain ⟨a, ha, hab⟩ := h21 b hb
      exact ⟨a, ha, (axis_hits_iff n a j).mpr (hab.trans ((axis_hits_iff n b j).mp hp))⟩
  have heq : o2 = o1 := by
    apply List.ext_getElem?
    intro j
    by_cases hj : j < (List.replicate n.toNat false).length
    · have hrep : (List.replicate n.toNat false)[j]? = some false := by
        rw [List.getElem?_eq_getElem hj, List.getElem_replicate]
      have t1 := hs1 j hj
      have t2 := hs2 j hj
      rw [hrep] at t1 t2
      simp only [reduceCtorEq, false_or, Option.some.injEq, Bool.false_eq_true] at t1 t2
      have hiff : o2[j]? = some true ↔ o1[j]? = some true := by
        rw [t1, t2]; exact (hsame j).symm
      have hj1 : j < o1.length := by rw [hl1]; exact hj
      have hj2 : j < o2.length := by rw [hl2]; exact hj
      rw [List.getElem?_eq_getElem hj1, List.getElem?_eq_getElem hj2] at hiff ⊢
      cases hb1 : o1[j] <;> cases hb2 : o2[j] <;> simp [hb1, hb2] at hiff ⊢
    · have hn1 : o1.length ≤ j := by rw [hl1]; omega
      have hn2 : o2.length ≤ j := by rw [hl2]; omega
      rw [List.getElem?_eq_none hn1, List.getElem?_eq_none hn2]
  refine ⟨o1, ho1, ?_⟩
  rw [← heq]
  exact ho2

/-- Two calls of `lift_reduction_ckernel_deferred` that differ only in the flag storage content
and in the axis list, the two lists being in bounds and resolving to the same axes,
compute the same flags and have the same outcome. -/
theorem lift_reduction_same_axes (uninit1 uninit2 : Nat → Bool) (ckd : ckernel_deferred)
    (lifted_type : ndt_type) (dst_initialization_obj : PyObject)
    (keepdims_obj associative_obj commutative_obj right_associative_obj : PyObject)
    (reduction_identity_obj : PyObject) (l1 l2 : List Int)
    (hn : 0 ≤ (lifted_type.ndim : Int) - (ckd.data_dynd_types_1.ndim : Int))
    (h1 : ∀ a ∈ l1, -((lifted_type.ndim : Int) - (ckd.data_dynd_types_1.ndim : Int)) ≤ a ∧
      a < (lifted_type.ndim : Int) - (ckd.data_dynd_types_1.ndim : Int))
    (h2 : ∀ b ∈ l2, -((lifted_type.ndim : Int) - (ckd.data_dynd_types_1.ndim : Int)) ≤ b ∧
      b < (lifted_type.ndim : Int) - (ckd.data_dynd_types_1.ndim : Int))
    (h12 : ∀ a ∈ l1, ∃ b ∈ l2,
      (if b < 0 then b + ((lifted_type.ndim : Int) - (ckd.data_dynd_types_1.ndim : Int)) else b) =
      (if a < 0 then a + ((lifted_type.ndim : Int) - (ckd.data_dynd_types_1.ndim : Int)) else a))
    (h21 : ∀ b ∈ l2, ∃ a ∈ l1,
      (if a < 0 then a + ((lifted_type.ndim : Int) - (ckd.data_dynd_types_1.ndim : Int)) else a) =
      (if b < 0 then b + ((lifted_type.ndim : Int) - (ckd.data_dynd_types_1.ndim : Int)) else b)) :
    (∃ flags,
      resolve_axis uninit1 ((lifted_type.ndim : Int) - (ckd.data_dynd_types_1.ndim : Int))
        (some l1) = .ok flags ∧
      resolve_axis uninit2 ((lifted_type.ndim : Int) - (ckd.data_dynd_types_1.ndim : Int))
        (some l2) = .ok flags) ∧
    lift_reduction_ckernel_deferred uninit1 (.WArray (.of_ckernel_deferred ckd)) lifted_type
        dst_initialization_obj (some l1) keepdims_obj associative_obj commutative_obj
        right_associative_obj reduction_identity_obj =
      lift_reduction_ckernel_deferred uninit2 (.WArray (.of_ckernel_deferred ckd)) lifted_type
        dst_initialization_obj (some l2) keepdims_obj associative_obj commutative_obj
        right_associative_obj reduction_identity_obj := by
  obtain ⟨flags, hf1, hf2⟩ := resolve_axis_same_axes uninit1 uninit2 _ l1 l2 hn h1 h2 h12 h21
  refine ⟨⟨flags, hf1, hf2⟩, ?_⟩
  simp only [lift_reduction_ckernel_deferred, hf1, hf2]

/-- When the axis block accepts the axis argument, the call does not fail with the
axis-out-of-bounds error, whatever the other arguments are. -/
theorem lift_reduction_no_axis_error (uninit : Nat → Bool) (ckd : ckernel_deferred)
    (lifted_type : ndt_type) (dst_initialization_obj : PyObject) (axis_obj : Option (List Int))
    (keepdims_obj associative_obj commutative_obj right_associative_obj : PyObject)
    (reduction_identity_obj : PyObject) (flags : List Bool)
    (hres : resolve_axis uninit ((lifted_type.ndim : Int) - (ckd.data_dynd_types_1.ndim : Int))
      axis_obj = .ok flags) (ax nd : Int) :
    lift_reduction_ckernel_deferred uninit (.WArray (.of_ckernel_deferred ckd)) lifted_type
        dst_initialization_obj axis_obj keepdims_obj associative_obj commutative_obj
        right_associative_obj reduction_identity_obj ≠ .error (.axis_out_of_bounds ax nd) := by
  intro h
  by_cases hdst : dst_initialization_obj = .Py_None ∨
      is_ckernel_deferred_array dst_initialization_obj = true
  · rw [lift_reduction_axis_error_iff uninit ckd lifted_type dst_initialization_obj axis_obj
      keepdims_obj associative_obj commutative_obj right_associative_obj
      reduction_identity_obj hdst, hres] at h
    exact absurd h (by simp)
  · cases dst_initialization_obj with
    | WArray w =>
      cases w with
      | of_ckernel_deferred d => simp [is_ckernel_deferred_array] at hdst
      | of_type tp => simp [lift_reduction_ckernel_deferred] at h
    | Py_None => simp at hdst
    | _ => simp [lift_reduction_ckernel_deferred] at h

/-- C11: axis resolution in `lift_reduction_ckernel_deferred` is insensitive to order and
repetition. For every `reduction_ndim >= 0` and every two in-bounds axis lists that resolve to
the same set of axes (`a` and `a - reduction_ndim` being the same axis), both lists are
accepted by the axis block with equal flag vectors, the two calls have the same outcome,
and neither fails with the axis-out-of-bounds error. In particular, for an in-bounds axis
`x`, the list `[x, x]` has the effect of `[x]`, and for `0 <= x` the lists `[x, x -
reduction_ndim]` and `[x - reduction_ndim]` have the effect of `[x]`. -/
theorem lift_reduction_axis_order_insensitive (uninit1 uninit2 : Nat → Bool)
    (ckd : ckernel_deferred) (lifted_type : ndt_type) (dst_initialization_obj : PyObject)
    (keepdims_obj associative_obj commutative_obj right_associative_obj : PyObject)
    (reduction_identity_obj : PyObject) (l1 l2 : List Int)
    (hn : 0 ≤ (lifted_type.ndim : Int) - (ckd.data_dynd_types_1.ndim : Int))
    (h1 : ∀ a ∈ l1, -((lifted_type.ndim : Int) - (ckd.data_dynd_types_1.ndim : Int)) ≤ a ∧
      a < ((lifted_type.ndim : Int) - (ckd.data_dynd_types_1.ndim : Int)))
    (h2 : ∀ b ∈ l2, -((lifted_type.ndim : Int) - (ckd.data_dynd_types_1.ndim : Int)) ≤ b ∧
      b < ((lifted_type.ndim : Int) - (ckd.data_dynd_types_1.ndim : Int)))
    (h12 : ∀ a ∈ l1, ∃ b ∈ l2,
      (if b < 0 then b + ((lifted_type.ndim : Int) - (ckd.data_dynd_types_1.ndim : Int)) else b) =
      (if a < 0 then a + ((lifted_type.ndim : Int) - (ckd.data_dynd_types_1.ndim : Int)) else a))
    (h21 : ∀ b ∈ l2, ∃ a ∈ l1,
      (if a < 0 then a + ((lifted_type.ndim : Int) - (ckd.data_dynd_types_1.ndim : Int)) else a) =
      (if b < 0 then b + ((lifted_type.ndim : Int) - (ckd.data_dynd_types_1.ndim : Int)) else b)) :
    ((∃ flags, resolve_axis uninit1 ((lifted_type.ndim : Int) - (ckd.data_dynd_types_1.ndim : Int))
        (some l1) = .ok flags ∧
        resolve_axis uninit2 ((lifted_type.ndim : Int) - (ckd.data_dynd_types_1.ndim : Int))
            (some l2) = .ok flags) ∧
      lift_reduction_ckernel_deferred uninit1 (.WArray (.of_ckernel_deferred ckd)) lifted_type
        dst_initialization_obj (some l1) keepdims_obj associative_obj commutative_obj
        right_associative_obj reduction_identity_obj =
      lift_reduction_ckernel_deferred uninit2 (.WArray (.of_ckernel_deferred ckd)) lifted_type
        dst_initialization_obj (some l2) keepdims_obj associative_obj commutative_obj
        right_associative_obj reduction_identity_obj) ∧
    (∀ ax nd,
      lift_reduction_ckernel_deferred uninit1 (.WArray (.of_ckernel_deferred ckd)) lifted_type
        dst_initialization_obj (some l1) keepdims_obj associative_obj commutative_obj
        right_associative_obj reduction_identity_obj ≠
        .error (.axis_out_of_bounds ax nd) ∧
      lift_reduction_ckernel_deferred uninit2 (.WArray (.of_ckernel_deferred ckd)) lifted_type
        dst_initialization_obj (some l2) keepdims_obj associative_obj commutative_obj
        right_associative_obj reduction_identity_obj ≠
        .error (.axis_out_of_bounds ax nd)) ∧
    (∀ x : Int, -((lifted_type.ndim : Int) - (ckd.data_dynd_types_1.ndim : Int)) ≤ x →
      x < ((lifted_type.ndim : Int) - (ckd.data_dynd_types_1.ndim : Int)) →
      ((∃ flags, resolve_axis uninit1 ((lifted_type.ndim : Int) - (ckd.data_dynd_types_1.ndim : Int))
          (some [x, x]) = .ok flags ∧
        resolve_axis uninit2 ((lifted_type.ndim : Int) - (ckd.data_dynd_types_1.ndim : Int))
            (some [x]) = .ok flags) ∧
      lift_reduction_ckernel_deferred uninit1 (.WArray (.of_ckernel_deferred ckd)) lifted_type
        dst_initialization_obj (some [x, x]) keepdims_obj associative_obj commutative_obj
        right_associative_obj reduction_identity_obj =
      lift_reduction_ckernel_deferred uninit2 (.WArray (.of_ckernel_deferred ckd)) lifted_type
        dst_initialization_obj (some [x]) keepdims_obj associative_obj commutative_obj
        right_associative_obj reduction_identity_obj)) ∧
    (∀ x : Int, 0 ≤ x → x < ((lifted_type.ndim : Int) - (ckd.data_dynd_types_1.ndim : Int)) →
      ((∃ flags, resolve_axis uninit1 ((lifted_type.ndim : Int) - (ckd.data_dynd_types_1.ndim : Int))
          (some [x, x - ((lifted_type.ndim : Int) - (ckd.data_dynd_types_1.ndim : Int))])
            = .ok flags ∧
        resolve_axis uninit2 ((lifted_type.ndim : Int) - (ckd.data_dynd_types_1.ndim : Int))
            (some [x]) = .ok flags) ∧
      lift_reduction_ckernel_deferred uninit1 (.WArray (.of_ckernel_deferred ckd)) lifted_type
        dst_initialization_obj
        (some [x, x - ((lifted_type.ndim : Int) - (ckd.data_dynd_types_1.ndim : Int))])
        keepdims_obj associative_obj commutative_obj
        right_associative_obj reduction_identity_obj =
      lift_reduction_ckernel_deferred uninit2 (.WArray (.of_ckernel_deferred ckd)) lifted_type
        dst_initialization_obj (some [x]) keepdims_obj associative_obj commutative_obj
        right_associative_obj reduction_identity_obj) ∧
      ((∃ flags, resolve_axis uninit1 ((lifted_type.ndim : Int) - (ckd.data_dynd_types_1.ndim : Int))
          (some [x - ((lifted_type.ndim : Int) - (ckd.data_dynd_types_1.ndim : Int))]) = .ok flags ∧
        resolve_axis uninit2 ((lifted_type.ndim : Int) - (ckd.data_dynd_types_1.ndim : Int))
            (some [x]) = .ok flags) ∧
      lift_reduction_ckernel_deferred uninit1 (.WArray (.of_ckernel_deferred ckd)) lifted_type
        dst_initialization_obj
        (some [x - ((lifted_type.ndim : Int) - (ckd.data_dynd_types_1.ndim : Int))])
        keepdims_obj associative_obj commutative_obj
        right_associative_obj reduction_identity_obj =
      lift_reduction_ckernel_deferred uninit2 (.WArray (.of_ckernel_deferred ckd)) lifted_type
        dst_initialization_obj (some [x]) keepdims_obj associative_obj commutative_obj
        right_associative_obj reduction_identity_obj)) := by
  have hgen := lift_reduction_same_axes uninit1 uninit2 ckd lifted_type dst_initialization_obj
    keepdims_obj associative_obj commutative_obj right_associative_obj reduction_identity_obj
    l1 l2 hn h1 h2 h12 h21
  refine ⟨hgen, ?_, ?_, ?_⟩
  · obtain ⟨⟨flags, hf1, hf2⟩, _⟩ := hgen
    intro ax nd
    exact ⟨lift_reduction_no_axis_error uninit1 ckd lifted_type dst_initialization_obj _
        keepdims_obj associative_obj commutative_obj right_associative_obj
        reduction_identity_obj flags hf1 ax nd,
      lift_reduction_no_axis_error uninit2 ckd lifted_type dst_initialization_obj _
        keepdims_obj associative_obj commutative_obj right_associative_obj
        reduction_identity_obj flags hf2 ax nd⟩
  · intro x hx1 hx2
    apply lift_reduction_same_axes
    · exact hn
    · intro a ha
      simp only [List.mem_cons, List.mem_singleton, List.not_mem_nil, or_false, or_self] at ha
      subst ha
      exact ⟨hx1, hx2⟩
    · intro b hb
      simp only [List.mem_singleton] at hb
      subst hb
      exact ⟨hx1, hx2⟩
    · intro a ha
      simp only [List.mem_cons, List.mem_singleton, List.not_mem_nil, or_false, or_self] at ha
      subst ha
      exact ⟨a, by simp, rfl⟩
    · intro b hb
      simp only [List.mem_singleton] at hb
      subst hb
      exact ⟨b, by simp, rfl⟩
  · intro x hx1 hx2
    constructor
    · apply lift_reduction_same_axes
      · exact hn
      · intro a ha
        simp only [List.mem_cons, List.mem_singleton, List.not_mem_nil, or_false] at ha
        rcases ha with rfl | rfl <;> constructor <;> omega
      · intro b hb
        simp only [List.mem_singleton] at hb
        subst hb
        constructor <;> omega
      · intro a ha
        simp only [List.mem_cons, List.mem_singleton, List.not_mem_nil, or_false] at ha
        refine ⟨x, by simp, ?_⟩
        rcases ha with rfl | rfl <;> split_ifs <;> omega
      · intro b hb
        simp only [List.mem_singleton] at hb
        subst hb
        exact ⟨b, by simp, rfl⟩
    · apply lift_reduction_same_axes
      · exact hn
      · intro a ha
        simp only [List.mem_singleton] at ha
        subst ha
        constructor <;> omega
      · intro b hb
        simp only [List.mem_singleton] at hb
        subst hb
        constructor <;> omega
      · intro a ha
        simp only [List.mem_singleton] at ha
        refine ⟨x, by simp, ?_⟩
        subst ha
        split_ifs <;> omega
      · intro b hb
        simp only [List.mem_singleton] at hb
        subst hb
        refine ⟨b - ((lifted_type.ndim : Int) - (ckd.data_dynd_types_1.ndim : Int)), by simp, ?_⟩
        split_ifs <;> omega

/-- C11 at `reduction_ndim = 3` with the lists `[2, -1, 0, 2]` and `[-3, 2]`, which both denote
the axes 0 and 2 (with a repetition, both spellings of axis 2, and a different order), and
with different storage contents: both calls reach the library with the flags
`[true, false, true]`. -/
theorem lift_reduction_axis_order_insensitive_witness :
    (0 ≤ (cube_type.ndim : Int) - (sum_ckd.data_dynd_types_1.ndim : Int)) ∧
    (∀ a ∈ ([2, -1, 0, 2] : List Int), -((cube_type.ndim : Int) - (sum_ckd.data_dynd_types_1.ndim : Int)) ≤ a ∧
      a < ((cube_type.ndim : Int) - (sum_ckd.data_dynd_types_1.ndim : Int))) ∧
    (∀ b ∈ ([-3, 2] : List Int), -((cube_type.ndim : Int) - (sum_ckd.data_dynd_types_1.ndim : Int)) ≤ b ∧
      b < ((cube_type.ndim : Int) - (sum_ckd.data_dynd_types_1.ndim : Int))) ∧
    (∀ a ∈ ([2, -1, 0, 2] : List Int), ∃ b ∈ ([-3, 2] : List Int),
      (if b < 0 then b + ((cube_type.ndim : Int) - (sum_ckd.data_dynd_types_1.ndim : Int)) else b) =
      (if a < 0 then a + ((cube_type.ndim : Int) - (sum_ckd.data_dynd_types_1.ndim : Int)) else a)) ∧
    (∀ b ∈ ([-3, 2] : List Int), ∃ a ∈ ([2, -1, 0, 2] : List Int),
      (if a < 0 then a + ((cube_type.ndim : Int) - (sum_ckd.data_dynd_types_1.ndim : Int)) else a) =
      (if b < 0 then b + ((cube_type.ndim : Int) - (sum_ckd.data_dynd_types_1.ndim : Int)) else b)) ∧
    ((∃ flags, resolve_axis stale_storage ((cube_type.ndim : Int) - (sum_ckd.data_dynd_types_1.ndim : Int))
        (some ([2, -1, 0, 2] : List Int)) = .ok flags ∧
        resolve_axis (fun _ => false) ((cube_type.ndim : Int) - (sum_ckd.data_dynd_types_1.ndim : Int))
            (some ([-3, 2] : List Int)) = .ok flags) ∧
      lift_reduction_ckernel_deferred stale_storage (.WArray (.of_ckernel_deferred sum_ckd)) cube_type
        .Py_None (some ([2, -1, 0, 2] : List Int)) .Py_False .Py_True .Py_True .Py_False .Py_None =
      lift_reduction_ckernel_deferred (fun _ => false) (.WArray (.of_ckernel_deferred sum_ckd)) cube_type
        .Py_None (some ([-3, 2] : List Int)) .Py_False .Py_True .Py_True .Py_False .Py_None) ∧
    (lift_reduction_ckernel_deferred stale_storage (.WArray (.of_ckernel_deferred sum_ckd)) cube_type
        .Py_None (some ([2, -1, 0, 2] : List Int)) .Py_False .Py_True .Py_True .Py_False .Py_None).toOption.map
        (fun call => call.reduction_dimflags) = some [true, false, true] ∧
    (lift_reduction_ckernel_deferred (fun _ => false) (.WArray (.of_ckernel_deferred sum_ckd)) cube_type
        .Py_None (some ([-3, 2] : List Int)) .Py_False .Py_True .Py_True .Py_False .Py_None).toOption.map
        (fun call => call.reduction_dimflags) = some [true, false, true] :=
  ⟨by decide, by decide, by decide, by decide, by decide,
   (lift_reduction_axis_order_insensitive stale_storage (fun _ => false) sum_ckd cube_type
     .Py_None .Py_False .Py_True .Py_True .Py_False .Py_None [2, -1, 0, 2] [-3, 2]
     (by decide) (by decide) (by decide) (by decide) (by decide)).1,
   rfl, rfl⟩

/-! ## Theorems: make_assignment_ckernel -/

/-- The emitting tail of `make_assignment_ckernel` ends with a kernel size or with an error of a
library callee, never with one of the validation errors. -/
theorem make_assignment_ckernel_emit_result (lib : dynd_library) (out_ckb : ckernel_builder)
    (ckb_offset : Int) (dst_tp : ndt_type) (dst_metadata : Option (List Nat))
    (src_tp : ndt_type) (src_metadata : Option (List Nat))
    (funcproto : deferred_ckernel_funcproto_t) (kerntype : kernel_request_t) :
    (∃ kernel_size, (make_assignment_ckernel_emit lib out_ckb ckb_offset dst_tp dst_metadata
        src_tp src_metadata funcproto kerntype).2 = .ok kernel_size) ∨
      (∃ code, (make_assignment_ckernel_emit lib out_ckb ckb_offset dst_tp dst_metadata
        src_tp src_metadata funcproto kerntype).2 = .error (.library code)) := by
  unfold make_assignment_ckernel_emit
  simp only
  split
  · exact Or.inr ⟨_, rfl⟩
  · split
    · exact Or.inr ⟨_, rfl⟩
    · exact Or.inl ⟨_, rfl⟩

/-- The first two checks of `make_assignment_ckernel` reject the call exactly when an operand
has no metadata although its type needs some, and then leave the buffer alone. -/
theorem make_assignment_ckernel_metadata (lib : dynd_library) (out_ckb : ckernel_builder)
    (ckb_offset : Int) (dst_tp : ndt_type) (dst_metadata : Option (List Nat))
    (src_tp : ndt_type) (src_metadata : Option (List Nat)) (funcproto_obj kerntype_obj : String)
    (h : (dst_metadata = none ∧ dst_tp.metadata_size ≠ 0) ∨
      (src_metadata = none ∧ src_tp.metadata_size ≠ 0)) :
    ∃ tp, make_assignment_ckernel lib out_ckb ckb_offset dst_tp dst_metadata src_tp src_metadata
      funcproto_obj kerntype_obj = (out_ckb, .error (.metadata_mismatch tp)) := by
  by_cases hd : dst_metadata = none ∧ dst_tp.metadata_size ≠ 0
  · exact ⟨dst_tp, by unfold make_assignment_ckernel; rw [if_pos hd]⟩
  · have hs : src_metadata = none ∧ src_tp.metadata_size ≠ 0 := h.resolve_left hd
    exact ⟨src_tp, by unfold make_assignment_ckernel; rw [if_neg hd, if_pos hs]⟩

/-- Past the metadata checks, `make_assignment_ckernel` is the parse of the two tags followed by
the emitting tail. -/
theorem make_assignment_ckernel_tags (lib : dynd_library) (out_ckb : ckernel_builder)
    (ckb_offset : Int) (dst_tp : ndt_type) (dst_metadata : Option (List Nat))
    (src_tp : ndt_type) (src_metadata : Option (List Nat)) (funcproto_obj kerntype_obj : String)
    (hd : ¬ (dst_metadata = none ∧ dst_tp.metadata_size ≠ 0))
    (hs : ¬ (src_metadata = none ∧ src_tp.metadata_size ≠ 0)) :
    (¬ (funcproto_obj = "unary" ∨ funcproto_obj = "expr") →
      make_assignment_ckernel lib out_ckb ckb_offset dst_tp dst_metadata src_tp src_metadata
        funcproto_obj kerntype_obj =
          (out_ckb, .error (.invalid_function_prototype funcproto_obj))) ∧
    ((funcproto_obj = "unary" ∨ funcproto_obj = "expr") →
      ¬ (kerntype_obj = "single" ∨ kerntype_obj = "strided") →
      make_assignment_ckernel lib out_ckb ckb_offset dst_tp dst_metadata src_tp src_metadata
        funcproto_obj kerntype_obj =
          (out_ckb, .error (.invalid_kernel_request_type kerntype_obj))) ∧
    ((funcproto_obj = "unary" ∨ funcproto_obj = "expr") →
      (kerntype_obj = "single" ∨ kerntype_obj = "strided") →
      make_assignment_ckernel lib out_ckb ckb_offset dst_tp dst_metadata src_tp src_metadata
        funcproto_obj kerntype_obj =
          make_assignment_ckernel_emit lib out_ckb ckb_offset dst_tp dst_metadata
            src_tp src_metadata
            (if funcproto_obj = "unary" then .unary_operation_funcproto
              else .expr_operation_funcproto)
            (if kerntype_obj = "single" then .kernel_request_single
              else .kernel_request_strided)) := by
  have hfp_ok : ∀ fp : String, (fp = "unary" ∨ fp = "expr") →
      (if fp = "unary" then
          (Except.ok deferred_ckernel_funcproto_t.unary_operation_funcproto :
            Except Error deferred_ckernel_funcproto_t)
        else if fp = "expr" then Except.ok deferred_ckernel_funcproto_t.expr_operation_funcproto
        else Except.error (Error.invalid_function_prototype fp)) =
      Except.ok (if fp = "unary" then deferred_ckernel_funcproto_t.unary_operation_funcproto
        else deferred_ckernel_funcproto_t.expr_operation_funcproto) := by
    intro fp h
    by_cases h1 : fp = "unary"
    · rw [if_pos h1, if_pos h1]
    · rw [if_neg h1, if_pos (h.resolve_left h1), if_neg h1]
  have hkt_ok : ∀ kt : String, (kt = "single" ∨ kt = "strided") →
      (if kt = "single" then
          (Except.ok kernel_request_t.kernel_request_single : Except Error kernel_request_t)
        else if kt = "strided" then Except.ok kernel_request_t.kernel_request_strided
        else Except.error (Error.invalid_kernel_request_type kt)) =
      Except.ok (if kt = "single" then kernel_request_t.kernel_request_single
        else kernel_request_t.kernel_request_strided) := by
    intro kt h
    by_cases h1 : kt = "single"
    · rw [if_pos h1, if_pos h1]
    · rw [if_neg h1, if_pos (h.resolve_left h1), if_neg h1]
  refine ⟨?_, ?_, ?_⟩
  · intro hfp
    have h1 : ¬ funcproto_obj = "unary" := fun h => hfp (Or.inl h)
    have h2 : ¬ funcproto_obj = "expr" := fun h => hfp (Or.inr h)
    unfold make_assignment_ckernel
    rw [if_neg hd, if_neg hs]
    simp only
    rw [if_neg h1, if_neg h2]
  · intro hfp hkt
    have h1 : ¬ kerntype_obj = "single" := fun h => hkt (Or.inl h)
    have h2 : ¬ kerntype_obj = "strided" := fun h => hkt (Or.inr h)
    unfold make_assignment_ckernel
    rw [if_neg hd, if_neg hs]
    simp only
    rw [hfp_ok _ hfp]
    simp only
    rw [if_neg h1, if_neg h2]
  · intro hfp hkt
    unfold make_assignment_ckernel
    rw [if_neg hd, if_neg hs]
    simp only
    rw [hfp_ok _ hfp]
    simp only
    rw [hkt_ok _ hkt]

/-- The four ways a call of `make_assignment_ckernel` can go, in the order of the code:
metadata check, prototype tag, kernel request tag, emission. The first three leave the
kernel buffer as it was. -/
theorem make_assignment_ckernel_cases (lib : dynd_library) (out_ckb : ckernel_builder)
    (ckb_offset : Int) (dst_tp : ndt_type) (dst_metadata : Option (List Nat))
    (src_tp : ndt_type) (src_metadata : Option (List Nat)) (funcproto_obj kerntype_obj : String) :
    (((dst_metadata = none ∧ dst_tp.metadata_size ≠ 0) ∨
        (src_metadata = none ∧ src_tp.metadata_size ≠ 0)) ∧
      ∃ tp, make_assignment_ckernel lib out_ckb ckb_offset dst_tp dst_metadata src_tp
        src_metadata funcproto_obj kerntype_obj = (out_ckb, .error (.metadata_mismatch tp))) ∨
    (¬ ((dst_metadata = none ∧ dst_tp.metadata_size ≠ 0) ∨
        (src_metadata = none ∧ src_tp.metadata_size ≠ 0)) ∧
      ¬ (funcproto_obj = "unary" ∨ funcproto_obj = "expr") ∧
      make_assignment_ckernel lib out_ckb ckb_offset dst_tp dst_metadata src_tp
        src_metadata funcproto_obj kerntype_obj =
          (out_ckb, .error (.invalid_function_prototype funcproto_obj))) ∨
    (¬ ((dst_metadata = none ∧ dst_tp.metadata_size ≠ 0) ∨
        (src_metadata = none ∧ src_tp.metadata_size ≠ 0)) ∧
      (funcproto_obj = "unary" ∨ funcproto_obj = "expr") ∧
      ¬ (kerntype_obj = "single" ∨ kerntype_obj = "strided") ∧
      make_assignment_ckernel lib out_ckb ckb_offset dst_tp dst_metadata src_tp
        src_metadata funcproto_obj kerntype_obj =
          (out_ckb, .error (.invalid_kernel_request_type kerntype_obj))) ∨
    (¬ ((dst_metadata = none ∧ dst_tp.metadata_size ≠ 0) ∨
        (src_metadata = none ∧ src_tp.metadata_size ≠ 0)) ∧
      (funcproto_obj = "unary" ∨ funcproto_obj = "expr") ∧
      (kerntype_obj = "single" ∨ kerntype_obj = "strided") ∧
      ((∃ kernel_size, (make_assignment_ckernel lib out_ckb ckb_offset dst_tp dst_metadata src_tp
          src_metadata funcproto_obj kerntype_obj).2 = .ok kernel_size) ∨
        (∃ code, (make_assignment_ckernel lib out_ckb ckb_offset dst_tp dst_metadata src_tp
          src_metadata funcproto_obj kerntype_obj).2 = .error (.library code)))) := by
  by_cases hm : (dst_metadata = none ∧ dst_tp.metadata_size ≠ 0) ∨
      (src_metadata = none ∧ src_tp.metadata_size ≠ 0)
  · exact Or.inl ⟨hm, make_assignment_ckernel_metadata lib out_ckb ckb_offset dst_tp dst_metadata
      src_tp src_metadata funcproto_obj kerntype_obj hm⟩
  · have hd : ¬ (dst_metadata = none ∧ dst_tp.metadata_size ≠ 0) := fun h => hm (Or.inl h)
    have hs : ¬ (src_metadata = none ∧ src_tp.metadata_size ≠ 0) := fun h => hm (Or.inr h)
    obtain ⟨t1, t2, t3⟩ := make_assignment_ckernel_tags lib out_ckb ckb_offset dst_tp dst_metadata
      src_tp src_metadata funcproto_obj kerntype_obj hd hs
    by_cases hfp : funcproto_obj = "unary" ∨ funcproto_obj = "expr"
    · by_cases hkt : kerntype_obj = "single" ∨ kerntype_obj = "strided"
      · refine Or.inr (Or.inr (Or.inr ⟨hm, hfp, hkt, ?_⟩))
        rw [t3 hfp hkt]
        exact make_assignment_ckernel_emit_result _ _ _ _ _ _ _ _ _
      · exact Or.inr (Or.inr (Or.inl ⟨hm, hfp, hkt, t2 hfp hkt⟩))
    · exact Or.inr (Or.inl ⟨hm, hfp, t1 hfp⟩)

/-- C4 as stated fails: with a destination type that needs metadata and a `NULL` destination
metadata pointer, the prototype tag `"binary_predicate"` (neither `"unary"` nor `"expr"`)
does not produce the invalid-function-prototype error; the call fails with the metadata
mismatch error, which is checked first. -/
theorem make_assignment_ckernel_tag_counterexample :
    ¬ ("binary_predicate" = "unary" ∨ "binary_predicate" = "expr") ∧
    make_assignment_ckernel sample_library sample_ckb 0 cube_type none float64_type none
      "binary_predicate" "single" = (sample_ckb, .error (.metadata_mismatch cube_type)) ∧
    (∀ fp, (make_assignment_ckernel sample_library sample_ckb 0 cube_type none float64_type
      none "binary_predicate" "single").2 ≠ .error (.invalid_function_prototype fp)) ∧
    ¬ (∀ (lib : dynd_library) (out_ckb : ckernel_builder) (ckb_offset : Int)
        (dst_tp : ndt_type) (dst_metadata : Option (List Nat)) (src_tp : ndt_type)
        (src_metadata : Option (List Nat)) (funcproto_obj kerntype_obj : String),
        ¬ (funcproto_obj = "unary" ∨ funcproto_obj = "expr") →
        ∃ fp, (make_assignment_ckernel lib out_ckb ckb_offset dst_tp dst_metadata src_tp
          src_metadata funcproto_obj kerntype_obj).2 = .error (.invalid_function_prototype fp)) := by
  have heval : make_assignment_ckernel sample_library sample_ckb 0 cube_type none float64_type
      none "binary_predicate" "single" = (sample_ckb, .error (.metadata_mismatch cube_type)) := rfl
  have hne : ∀ fp, (make_assignment_ckernel sample_library sample_ckb 0 cube_type none
      float64_type none "binary_predicate" "single").2 ≠
        .error (.invalid_function_prototype fp) := by
    intro fp h
    rw [heval] at h
    cases h
  refine ⟨by decide, heval, hne, ?_⟩
  intro hall
  obtain ⟨fp, hfp⟩ := hall sample_library sample_ckb 0 cube_type none float64_type none
    "binary_predicate" "single" (by decide)
  exact hne fp hfp

/-- C4 (amended): when the metadata validation passes (each operand has metadata supplied or a
type of metadata size zero), `make_assignment_ckernel` fails with the
invalid-function-prototype error if and only if the prototype tag is neither `"unary"` nor
`"expr"`, and fails with the invalid-kernel-request-type error if and only if the prototype
tag is one of these two and the kernel request tag is neither `"single"` nor `"strided"`;
each error names the rejected tag and the kernel buffer is returned as it was. -/
theorem make_assignment_ckernel_tag_vocabulary (lib : dynd_library) (out_ckb : ckernel_builder)
    (ckb_offset : Int) (dst_tp : ndt_type) (dst_metadata : Option (List Nat))
    (src_tp : ndt_type) (src_metadata : Option (List Nat)) (funcproto_obj kerntype_obj : String)
    (hd : ¬ (dst_metadata = none ∧ dst_tp.metadata_size ≠ 0))
    (hs : ¬ (src_metadata = none ∧ src_tp.metadata_size ≠ 0)) :
    ((∃ fp, (make_assignment_ckernel lib out_ckb ckb_offset dst_tp dst_metadata src_tp
        src_metadata funcproto_obj kerntype_obj).2 = .error (.invalid_function_prototype fp)) ↔
      ¬ (funcproto_obj = "unary" ∨ funcproto_obj = "expr")) ∧
    ((∃ kt, (make_assignment_ckernel lib out_ckb ckb_offset dst_tp dst_metadata src_tp
        src_metadata funcproto_obj kerntype_obj).2 = .error (.invalid_kernel_request_type kt)) ↔
      ((funcproto_obj = "unary" ∨ funcproto_obj = "expr") ∧
        ¬ (kerntype_obj = "single" ∨ kerntype_obj = "strided"))) ∧
    (¬ (funcproto_obj = "unary" ∨ funcproto_obj = "expr") →
      make_assignment_ckernel lib out_ckb ckb_offset dst_tp dst_metadata src_tp src_metadata
        funcproto_obj kerntype_obj =
          (out_ckb, .error (.invalid_function_prototype funcproto_obj))) ∧
    ((funcproto_obj = "unary" ∨ funcproto_obj = "expr") →
      ¬ (kerntype_obj = "single" ∨ kerntype_obj = "strided") →
      make_assignment_ckernel lib out_ckb ckb_offset dst_tp dst_metadata src_tp src_metadata
        funcproto_obj kerntype_obj =
          (out_ckb, .error (.invalid_kernel_request_type kerntype_obj))) := by
  obtain ⟨t1, t2, _⟩ := make_assignment_ckernel_tags lib out_ckb ckb_offset dst_tp dst_metadata
    src_tp src_metadata funcproto_obj kerntype_obj hd hs
  refine ⟨?_, ?_, t1, t2⟩
  · rcases make_assignment_ckernel_cases lib out_ckb ckb_offset dst_tp dst_metadata src_tp
      src_metadata funcproto_obj kerntype_obj with
      ⟨hm, _⟩ | ⟨_, hfp, h⟩ | ⟨_, hfp, _, h⟩ | ⟨_, hfp, _, ⟨k, h⟩ | ⟨c, h⟩⟩
    · exact absurd hm (fun h => h.elim hd hs)
    · exact ⟨fun _ => hfp, fun _ => ⟨funcproto_obj, by rw [h]⟩⟩
    · exact ⟨fun ⟨fp, hx⟩ => (by rw [h] at hx; cases hx), fun hn => absurd hfp hn⟩
    · exact ⟨fun ⟨fp, hx⟩ => (by rw [h] at hx; cases hx), fun hn => absurd hfp hn⟩
    · exact ⟨fun ⟨fp, hx⟩ => (by rw [h] at hx; cases hx), fun hn => absurd hfp hn⟩
  · rcases make_assignment_ckernel_cases lib out_ckb ckb_offset dst_tp dst_metadata src_tp
      src_metadata funcproto_obj kerntype_obj with
      ⟨hm, _⟩ | ⟨_, hfp, h⟩ | ⟨_, hfp, hkt, h⟩ | ⟨_, hfp, hkt, ⟨k, h⟩ | ⟨c, h⟩⟩
    · exact absurd hm (fun h => h.elim hd hs)
    · exact ⟨fun ⟨kt, hx⟩ => (by rw [h] at hx; cases hx), fun hn => absurd hn.1 hfp⟩
    · exact ⟨fun _ => ⟨hfp, hkt⟩, fun _ => ⟨kerntype_obj, by rw [h]⟩⟩
    · exact ⟨fun ⟨kt, hx⟩ => (by rw [h] at hx; cases hx), fun hn => absurd hkt hn.2⟩
    · exact ⟨fun ⟨kt, hx⟩ => (by rw [h] at hx; cases hx), fun hn => absurd hkt hn.2⟩

/-- C4 (amended) on `float64` operands without metadata: the hypotheses hold (the metadata
size is zero), and the theorem applies to the tags `"binary_predicate"` and `"single"`. -/
theorem make_assignment_ckernel_tag_vocabulary_witness :
    ¬ ((none : Option (List Nat)) = none ∧ float64_type.metadata_size ≠ 0) ∧
    ((∃ fp, (make_assignment_ckernel sample_library sample_ckb 0 float64_type none float64_type
        none "binary_predicate" "single").2 = .error (.invalid_function_prototype fp)) ↔
      ¬ ("binary_predicate" = "unary" ∨ "binary_predicate" = "expr")) ∧
    make_assignment_ckernel sample_library sample_ckb 0 float64_type none float64_type none
      "binary_predicate" "single" =
        (sample_ckb, .error (.invalid_function_prototype "binary_predicate")) ∧
    make_assignment_ckernel sample_library sample_ckb 0 float64_type none float64_type none
      "unary" "contiguous" = (sample_ckb, .error (.invalid_kernel_request_type "contiguous")) :=
  ⟨by decide,
   (make_assignment_ckernel_tag_vocabulary sample_library sample_ckb 0 float64_type none
     float64_type none "binary_predicate" "single" (by decide) (by decide)).1,
   rfl, rfl⟩

/-- C5: `make_assignment_ckernel` fails with the metadata-mismatch error if and only if the
destination metadata is absent while the destination type has a non-zero metadata size, or
the source metadata is absent while the source type has a non-zero metadata size; when
each operand has metadata supplied or a type of metadata size zero the error is not
raised. -/
theorem make_assignment_ckernel_metadata_mismatch_iff (lib : dynd_library)
    (out_ckb : ckernel_builder) (ckb_offset : Int) (dst_tp : ndt_type)
    (dst_metadata : Option (List Nat)) (src_tp : ndt_type) (src_metadata : Option (List Nat))
    (funcproto_obj kerntype_obj : String) :
    (∃ tp, (make_assignment_ckernel lib out_ckb ckb_offset dst_tp dst_metadata src_tp
        src_metadata funcproto_obj kerntype_obj).2 = .error (.metadata_mismatch tp)) ↔
      ((dst_metadata = none ∧ dst_tp.metadata_size ≠ 0) ∨
        (src_metadata = none ∧ src_tp.metadata_size ≠ 0)) := by
  rcases make_assignment_ckernel_cases lib out_ckb ckb_offset dst_tp dst_metadata src_tp
    src_metadata funcproto_obj kerntype_obj with
    ⟨hm, tp, h⟩ | ⟨hm, _, h⟩ | ⟨hm, _, _, h⟩ | ⟨hm, _, _, ⟨k, h⟩ | ⟨c, h⟩⟩
  · exact ⟨fun _ => hm, fun _ => ⟨tp, by rw [h]⟩⟩
  · exact ⟨fun ⟨tp, hx⟩ => (by rw [h] at hx; cases hx), fun hn => absurd hn hm⟩
  · exact ⟨fun ⟨tp, hx⟩ => (by rw [h] at hx; cases hx), fun hn => absurd hn hm⟩
  · exact ⟨fun ⟨tp, hx⟩ => (by rw [h] at hx; cases hx), fun hn => absurd hn hm⟩
  · exact ⟨fun ⟨tp, hx⟩ => (by rw [h] at hx; cases hx), fun hn => absurd hn hm⟩

/-- C5 on a three-dimensional strided destination (48 bytes of metadata): without
destination metadata the call fails with the metadata-mismatch error for that type, with
metadata supplied it returns a kernel size. -/
theorem make_assignment_ckernel_metadata_mismatch_iff_witness :
    ((∃ tp, (make_assignment_ckernel sample_library sample_ckb 0 cube_type none float64_type
        none "unary" "single").2 = .error (.metadata_mismatch tp)) ↔
      (((none : Option (List Nat)) = none ∧ cube_type.metadata_size ≠ 0) ∨
        ((none : Option (List Nat)) = none ∧ float64_type.metadata_size ≠ 0))) ∧
    make_assignment_ckernel sample_library sample_ckb 0 cube_type none float64_type
      none "unary" "single" = (sample_ckb, .error (.metadata_mismatch cube_type)) ∧
    make_assignment_ckernel sample_library sample_ckb 0 cube_type (some [3, 160, 4, 40, 5, 8])
      float64_type none "unary" "single" = ({ data := [1, 2, 3, 0xA0] }, .ok 8) :=
  ⟨make_assignment_ckernel_metadata_mismatch_iff sample_library sample_ckb 0 cube_type none
     float64_type none "unary" "single",
   rfl, rfl⟩

/-- C10: whenever `make_assignment_ckernel` fails with the metadata-mismatch error, the
invalid-function-prototype error or the invalid-kernel-request-type error, the kernel
buffer after the call is the buffer before the call (same bytes, same size): all three
validations come before the first write, the `expr` adapter included. -/
theorem make_assignment_ckernel_validation_frame (lib : dynd_library)
    (out_ckb : ckernel_builder) (ckb_offset : Int) (dst_tp : ndt_type)
    (dst_metadata : Option (List Nat)) (src_tp : ndt_type) (src_metadata : Option (List Nat))
    (funcproto_obj kerntype_obj : String)
    (hfail : (∃ tp, (make_assignment_ckernel lib out_ckb ckb_offset dst_tp dst_metadata src_tp
          src_metadata funcproto_obj kerntype_obj).2 = .error (.metadata_mismatch tp)) ∨
      (∃ fp, (make_assignment_ckernel lib out_ckb ckb_offset dst_tp dst_metadata src_tp
          src_metadata funcproto_obj kerntype_obj).2 = .error (.invalid_function_prototype fp)) ∨
      (∃ kt, (make_assignment_ckernel lib out_ckb ckb_offset dst_tp dst_metadata src_tp
          src_metadata funcproto_obj kerntype_obj).2 =
            .error (.invalid_kernel_request_type kt))) :
    (make_assignment_ckernel lib out_ckb ckb_offset dst_tp dst_metadata src_tp
      src_metadata funcproto_obj kerntype_obj).1 = out_ckb := by
  rcases make_assignment_ckernel_cases lib out_ckb ckb_offset dst_tp dst_metadata src_tp
    src_metadata funcproto_obj kerntype_obj with
    ⟨_, tp, h⟩ | ⟨_, _, h⟩ | ⟨_, _, _, h⟩ | ⟨_, _, _, ⟨k, h⟩ | ⟨c, h⟩⟩
  · rw [h]
  · rw [h]
  · rw [h]
  · rw [h] at hfail
    rcases hfail with ⟨_, hx⟩ | ⟨_, hx⟩ | ⟨_, hx⟩ <;> cases hx
  · rw [h] at hfail
    rcases hfail with ⟨_, hx⟩ | ⟨_, hx⟩ | ⟨_, hx⟩ <;> cases hx

/-- C10 on an `expr` request with the unknown kernel request tag `"contiguous"`: the call fails
with the invalid-kernel-request-type error and the buffer still holds its three bytes,
although the stand-in adapter would have appended one. -/
theorem make_assignment_ckernel_validation_frame_witness :
    ((∃ tp, (make_assignment_ckernel sample_library sample_ckb 0 float64_type none float64_type
          none "expr" "contiguous").2 = .error (.metadata_mismatch tp)) ∨
      (∃ fp, (make_assignment_ckernel sample_library sample_ckb 0 float64_type none float64_type
          none "expr" "contiguous").2 = .error (.invalid_function_prototype fp)) ∨
      (∃ kt, (make_assignment_ckernel sample_library sample_ckb 0 float64_type none float64_type
          none "expr" "contiguous").2 = .error (.invalid_kernel_request_type kt))) ∧
    (make_assignment_ckernel sample_library sample_ckb 0 float64_type none float64_type
      none "expr" "contiguous").1 = sample_ckb ∧
    (make_assignment_ckernel sample_library sample_ckb 0 float64_type none float64_type
      none "expr" "single") = ({ data := [1, 2, 3, 0xE0, 0xA0] }, .ok 8) :=
  ⟨Or.inr (Or.inr ⟨"contiguous", rfl⟩),
   make_assignment_ckernel_validation_frame sample_library sample_ckb 0 float64_type none
     float64_type none "expr" "contiguous" (Or.inr (Or.inr ⟨"contiguous", rfl⟩)),
   rfl⟩

/-! ## Theorems: array_from_ptr -/

/-- The access argument parse of `array_from_ptr` on a string: the three access modes give their
flag words and every other string is rejected. -/
theorem access_flags_of_string (s : String) :
    pyarg_strings_to_int (some s) "access" read_access_flag
      [("readwrite", read_access_flag ||| write_access_flag),
       ("readonly", read_access_flag),
       ("immutable", read_access_flag ||| immutable_access_flag)] =
    if s = "readwrite" then .ok (read_access_flag ||| write_access_flag)
    else if s = "readonly" then .ok read_access_flag
    else if s = "immutable" then .ok (read_access_flag ||| immutable_access_flag)
    else .error (.invalid_argument "access" s) := by
  simp only [pyarg_strings_to_int]

/-- C6: `array_from_ptr` (exported as `array_from_pointer`), given a type, an address and one
of the access-mode strings `"readwrite"`, `"readonly"`, `"immutable"`, fails if and only if
the metadata size of the type is non-zero (with the unsupported-metadata error); when the
metadata size is zero it returns a view whose type is the given type and whose data
pointer is the given address. -/
theorem array_from_ptr_fails_iff (d : ndt_type) (ptr_val : Nat) (owner : PyObject)
    (access : String)
    (haccess : access = "readwrite" ∨ access = "readonly" ∨ access = "immutable") :
    ((∃ e, array_from_ptr d ptr_val owner (some access) = .error e) ↔ d.metadata_size ≠ 0) ∧
    (d.metadata_size ≠ 0 →
      array_from_ptr d ptr_val owner (some access) = .error (.unsupported_metadata d)) ∧
    (d.metadata_size = 0 →
      ∃ result, array_from_ptr d ptr_val owner (some access) = .ok result ∧
        result.m_type = d ∧ result.m_data_pointer = ptr_val ∧
        result.m_data_reference = owner) := by
  by_cases hm : d.metadata_size = 0
  · rcases haccess with rfl | rfl | rfl <;>
      simp [array_from_ptr, access_flags_of_string, hm]
  · rcases haccess with rfl | rfl | rfl <;>
      simp [array_from_ptr, access_flags_of_string, hm]

/-- C6 on `float64` (no metadata) and on a three-dimensional strided type (48 bytes of
metadata), both with access mode `"readonly"`: the first call returns the view, the second fails. -/
theorem array_from_ptr_fails_iff_witness :
    ("readonly" = "readwrite" ∨ "readonly" = "readonly" ∨ "readonly" = "immutable") ∧
    (∃ result, array_from_ptr float64_type 4096 .other (some "readonly") = .ok result ∧
        result.m_type = float64_type ∧ result.m_data_pointer = 4096 ∧
        result.m_data_reference = .other) ∧
    array_from_ptr cube_type 4096 .other (some "readonly") =
      .error (.unsupported_metadata cube_type) :=
  ⟨by decide,
   (array_from_ptr_fails_iff float64_type 4096 .other "readonly" (by decide)).2.2 rfl,
   (array_from_ptr_fails_iff cube_type 4096 .other "readonly" (by decide)).2.1 (by decide)⟩

/-- C7: for a type with empty metadata the access flags of the view built by `array_from_ptr`
depend on the access-mode string alone: `"readwrite"` gives exactly read+write,
`"readonly"` exactly read, `"immutable"` exactly read+immutable, and no other string gives a
view; hence a view is always readable, writable only for `"readwrite"`, and never both
writable and immutable. -/
theorem array_from_ptr_access_flags (d : ndt_type) (ptr_val : Nat) (owner : PyObject)
    (hmeta : d.metadata_size = 0) :
    array_from_ptr d ptr_val owner (some "readwrite") =
      .ok { m_type := d, m_data_pointer := ptr_val, m_data_reference := owner,
            m_flags := read_access_flag ||| write_access_flag } ∧
    array_from_ptr d ptr_val owner (some "readonly") =
      .ok { m_type := d, m_data_pointer := ptr_val, m_data_reference := owner,
            m_flags := read_access_flag } ∧
    array_from_ptr d ptr_val owner (some "immutable") =
      .ok { m_type := d, m_data_pointer := ptr_val, m_data_reference := owner,
            m_flags := read_access_flag ||| immutable_access_flag } ∧
    (∀ (access : String) (result : array_preamble),
      array_from_ptr d ptr_val owner (some access) = .ok result →
        (access = "readwrite" ∨ access = "readonly" ∨ access = "immutable") ∧
        result.m_flags &&& read_access_flag ≠ 0 ∧
        (result.m_flags &&& write_access_flag ≠ 0 ↔ access = "readwrite") ∧
        ¬ (result.m_flags &&& write_access_flag ≠ 0 ∧
            result.m_flags &&& immutable_access_flag ≠ 0)) ∧
    (∀ (d2 : ndt_type) (ptr_val2 : Nat) (owner2 : PyObject) (access : String)
        (result result2 : array_preamble),
      array_from_ptr d ptr_val owner (some access) = .ok result →
      array_from_ptr d2 ptr_val2 owner2 (some access) = .ok result2 →
        result.m_flags = result2.m_flags) := by
  have hflags : ∀ (t : ndt_type) (p : Nat) (o : PyObject) (access : String)
      (result : array_preamble), array_from_ptr t p o (some access) = .ok result →
      (access = "readwrite" ∧ result.m_flags = read_access_flag ||| write_access_flag) ∨
      (access = "readonly" ∧ result.m_flags = read_access_flag) ∨
      (access = "immutable" ∧ result.m_flags = read_access_flag ||| immutable_access_flag) := by
    intro t p o access result h
    simp only [array_from_ptr, access_flags_of_string] at h
    by_cases h1 : access = "readwrite"
    · subst h1
      left
      by_cases hm : t.metadata_size = 0
      · simp [hm] at h
        exact ⟨rfl, by rw [← h]⟩
      · simp [hm] at h
    · by_cases h2 : access = "readonly"
      · subst h2
        right; left
        by_cases hm : t.metadata_size = 0
        · simp [hm] at h
          exact ⟨rfl, by rw [← h]⟩
        · simp [hm] at h
      · by_cases h3 : access = "immutable"
        · subst h3
          right; right
          by_cases hm : t.metadata_size = 0
          · simp [hm] at h
            exact ⟨rfl, by rw [← h]⟩
          · simp [hm] at h
        · simp [h1, h2, h3] at h
  refine ⟨?_, ?_, ?_, ?_, ?_⟩
  · simp [array_from_ptr, access_flags_of_string, hmeta]
  · simp [array_from_ptr, access_flags_of_string, hmeta]
  · simp [array_from_ptr, access_flags_of_string, hmeta]
  · intro access result h
    rcases hflags d ptr_val owner access result h with ⟨rfl, hf⟩ | ⟨rfl, hf⟩ | ⟨rfl, hf⟩ <;>
      rw [hf] <;> decide
  · intro d2 ptr_val2 owner2 access result result2 h h2
    rcases hflags d ptr_val owner access result h with ⟨rfl, hf⟩ | ⟨rfl, hf⟩ | ⟨rfl, hf⟩ <;>
      rcases hflags d2 ptr_val2 owner2 _ result2 h2 with ⟨ha, hf2⟩ | ⟨ha, hf2⟩ | ⟨ha, hf2⟩ <;>
      first
        | exact absurd ha (by decide)
        | (rw [hf, hf2])

/-- C7 on a `float64` view: the metadata is empty, and the three access modes give the flag
words 3 (read+write), 1 (read) and 5 (read+immutable). -/
theorem array_from_ptr_access_flags_witness :
    float64_type.metadata_size = 0 ∧
    array_from_ptr float64_type 4096 .other (some "readwrite") =
      .ok { m_type := float64_type, m_data_pointer := 4096, m_data_reference := .other,
            m_flags := 3 } ∧
    array_from_ptr float64_type 4096 .other (some "readonly") =
      .ok { m_type := float64_type, m_data_pointer := 4096, m_data_reference := .other,
            m_flags := 1 } ∧
    array_from_ptr float64_type 4096 .other (some "immutable") =
      .ok { m_type := float64_type, m_data_pointer := 4096, m_data_reference := .other,
            m_flags := 5 } :=
  ⟨rfl,
   (array_from_ptr_access_flags float64_type 4096 .other rfl).1,
   (array_from_ptr_access_flags float64_type 4096 .other rfl).2.1,
   (array_from_ptr_access_flags float64_type 4096 .other rfl).2.2.1⟩

/-! ## Theorems: the deferred-kernel constructors -/

/-- C8: `make_ckernel_deferred_from_assignment` and `make_ckernel_deferred_from_property` use
the same function-prototype vocabulary: for every string, one fails with the
invalid-function-prototype error if and only if the other does, which is the case exactly
when the string is none of `"unary"`, `"expr"`, `"binary_predicate"`; the error then names
the string. -/
theorem deferred_constructors_same_vocabulary (lib : dynd_library) (dst_tp src_tp tp : ndt_type)
    (propname_obj : String) (errmode_obj1 errmode_obj2 : PyObject) (funcproto_obj : String) :
    ((∃ fp, make_ckernel_deferred_from_assignment lib dst_tp src_tp funcproto_obj errmode_obj1 =
        .error (.invalid_function_prototype fp)) ↔
      (∃ fp, make_ckernel_deferred_from_property lib tp propname_obj funcproto_obj errmode_obj2 =
        .error (.invalid_function_prototype fp))) ∧
    ((∃ fp, make_ckernel_deferred_from_assignment lib dst_tp src_tp funcproto_obj errmode_obj1 =
        .error (.invalid_function_prototype fp)) ↔
      ¬ (funcproto_obj = "unary" ∨ funcproto_obj = "expr" ∨
          funcproto_obj = "binary_predicate")) ∧
    ((∃ fp, make_ckernel_deferred_from_property lib tp propname_obj funcproto_obj errmode_obj2 =
        .error (.invalid_function_prototype fp)) ↔
      ¬ (funcproto_obj = "unary" ∨ funcproto_obj = "expr" ∨
          funcproto_obj = "binary_predicate")) ∧
    (¬ (funcproto_obj = "unary" ∨ funcproto_obj = "expr" ∨
          funcproto_obj = "binary_predicate") →
      make_ckernel_deferred_from_assignment lib dst_tp src_tp funcproto_obj errmode_obj1 =
        .error (.invalid_function_prototype funcproto_obj) ∧
      make_ckernel_deferred_from_property lib tp propname_obj funcproto_obj errmode_obj2 =
        .error (.invalid_function_prototype funcproto_obj)) := by
  have hparse : ∀ fp : String,
      (if fp = "unary" then
          (Except.ok deferred_ckernel_funcproto_t.unary_operation_funcproto :
            Except Error deferred_ckernel_funcproto_t)
        else if fp = "expr" then Except.ok deferred_ckernel_funcproto_t.expr_operation_funcproto
        else if fp = "binary_predicate" then
          Except.ok deferred_ckernel_funcproto_t.binary_predicate_funcproto
        else Except.error (Error.invalid_function_prototype fp)) =
      if fp = "unary" ∨ fp = "expr" ∨ fp = "binary_predicate" then
        Except.ok (if fp = "unary" then deferred_ckernel_funcproto_t.unary_operation_funcproto
          else if fp = "expr" then deferred_ckernel_funcproto_t.expr_operation_funcproto
          else deferred_ckernel_funcproto_t.binary_predicate_funcproto)
      else Except.error (Error.invalid_function_prototype fp) := by
    intro fp
    by_cases h1 : fp = "unary"
    · simp [h1]
    · by_cases h2 : fp = "expr"
      · simp [h2]
      · by_cases h3 : fp = "binary_predicate"
        · simp [h3]
        · simp [h1, h2, h3]
  have hA : (∃ fp, make_ckernel_deferred_from_assignment lib dst_tp src_tp funcproto_obj
        errmode_obj1 = .error (.invalid_function_prototype fp)) ↔
      ¬ (funcproto_obj = "unary" ∨ funcproto_obj = "expr" ∨
          funcproto_obj = "binary_predicate") := by
    unfold make_ckernel_deferred_from_assignment
    simp only [hparse]
    by_cases h : funcproto_obj = "unary" ∨ funcproto_obj = "expr" ∨
        funcproto_obj = "binary_predicate"
    · rw [if_pos h]
      simp only [h, not_true_eq_false, iff_false, not_exists]
      intro fp hx
      split at hx
      · cases hx
      · split at hx
        · cases hx
        · cases hx
    · rw [if_neg h]
      simp [h]
  have hP : (∃ fp, make_ckernel_deferred_from_property lib tp propname_obj funcproto_obj
        errmode_obj2 = .error (.invalid_function_prototype fp)) ↔
      ¬ (funcproto_obj = "unary" ∨ funcproto_obj = "expr" ∨
          funcproto_obj = "binary_predicate") := by
    unfold make_ckernel_deferred_from_property
    simp only [hparse]
    by_cases h : funcproto_obj = "unary" ∨ funcproto_obj = "expr" ∨
        funcproto_obj = "binary_predicate"
    · rw [if_pos h]
      simp only [h, not_true_eq_false, iff_false, not_exists]
      intro fp hx
      split at hx
      · cases hx
      · split at hx
        · cases hx
        · cases hx
    · rw [if_neg h]
      simp [h]
  refine ⟨hA.trans hP.symm, hA, hP, ?_⟩
  intro h
  constructor
  · unfold make_ckernel_deferred_from_assignment
    simp only [hparse]
    rw [if_neg h]
  · unfold make_ckernel_deferred_from_property
    simp only [hparse]
    rw [if_neg h]

/-- C8 on the tags `"binary_predicate"` (accepted by both constructors) and `"binary"`
(rejected by both with the invalid-function-prototype error). -/
theorem deferred_constructors_same_vocabulary_witness :
    ¬ ("binary" = "unary" ∨ "binary" = "expr" ∨ "binary" = "binary_predicate") ∧
    (make_ckernel_deferred_from_assignment sample_library float64_type float64_type "binary"
        .Py_None = .error (.invalid_function_prototype "binary") ∧
      make_ckernel_deferred_from_property sample_library float64_type "real" "binary"
        .Py_None = .error (.invalid_function_prototype "binary")) ∧
    make_ckernel_deferred_from_assignment sample_library float64_type float64_type
        "binary_predicate" .Py_None = .ok (.WArray (.of_ckernel_deferred sum_ckd)) ∧
    make_ckernel_deferred_from_property sample_library float64_type "real"
        "binary_predicate" .Py_None = .ok (.WArray (.of_ckernel_deferred sum_ckd)) :=
  ⟨by decide,
   (deferred_constructors_same_vocabulary sample_library float64_type float64_type float64_type
     "real" .Py_None .Py_None "binary").2.2.2 (by decide),
   rfl, rfl⟩

/-! ## Theorems: elwise_gfunc_call -/

/-- C12: `elwise_gfunc_call` is disabled. For every gfunc, positional arguments, keyword
arguments and prior state of the error indicator it returns `NULL` and leaves the error
indicator set to a `TypeError` with the message "Elementwise gfuncs disabled presently";
it never returns a result array. -/
theorem elwise_gfunc_call_disabled (gf : gfunc_elwise) (args : List PyObject)
    (kwargs : List (String × PyObject)) (err : PyErr_State) :
    (elwise_gfunc_call gf args kwargs err).2 = none ∧
    (elwise_gfunc_call gf args kwargs err).1 =
      some (PyExc.PyExc_TypeError, "Elementwise gfuncs disabled presently") ∧
    ∀ result : PyObject, (elwise_gfunc_call gf args kwargs err).2 ≠ some result := by
  refine ⟨rfl, rfl, ?_⟩
  intro result h
  simp [elwise_gfunc_call] at h

end pydynd
